import Mathlib

/-!
Verification of the `swap` repository: two Solana/Anchor programs implementing
a two-party atomic token swap, one using SPL token delegation
(src/delegate/src/lib.rs) and one using a program-owned escrow holding account
(src/escrow/src/lib.rs).

The embedding models the on-chain state as a ledger mapping addresses
(`Pubkey`, modelled as `Nat`) to accounts: SPL token accounts (with the fields
the programs read or write: authority, mint, amount, delegate,
delegated amount), the programs' `SwapInfo` records, and token mints.
Each instruction (`initialize_swap` / `take_swap`) is a function from a ledger
to `Except SwapError Ledger`: Anchor account validation (the `#[derive(Accounts)]`
constraints, in field order) followed by the handler body.  An error models a
failed Solana transaction: no state change is committed (`commit`).

Program-derived addresses (`find_program_address` / `create_program_address`)
are cryptographic hashes computed by the Solana runtime; they are modelled by
an explicit `Pda` structure carrying the two derivation functions, which the
operations take as a parameter.  SPL token `transfer` and `approve` are
modelled after the spl-token processor restricted to the fields above
(`u64` arithmetic is `Nat` with an explicit overflow check against `2^64-1`,
matching `checked_add`).
-/

abbrev Pubkey := Nat

def U64MAX : Nat := 2 ^ 64 - 1

/-- SPL token account, restricted to the fields the two programs read or
write: `owner` (the spending authority), `mint`, `amount`, `delegate` and
`delegatedAmount`. -/
structure TokenAccount where
  owner : Pubkey
  mint : Pubkey
  amount : Nat
  delegate : Option Pubkey
  delegatedAmount : Nat
deriving DecidableEq

/-- Error outcomes of one instruction, coarsening the Anchor / SPL / system
error codes to the distinctions the programs can actually produce. -/
inductive SwapError where
  /-- custom error `SwapInfoAlreadyInitialised` (delegate lib.rs 185-189, escrow lib.rs 207-211) -/
  | alreadyInitialized
  /-- the account at the given address does not exist (Anchor `AccountNotInitialized`) -/
  | notFound
  /-- `init` on an account that already exists (system program "account already in use") -/
  | accountInUse
  /-- an Anchor `constraint`/`address`/`seeds` check failed, or the account has the wrong type -/
  | constraintViolation
  /-- SPL token: insufficient balance or insufficient delegated amount -/
  | insufficientFunds
  /-- SPL token: source and destination mints differ -/
  | mintMismatch
  /-- SPL token: authority is not the owner/delegate or did not sign -/
  | ownerMismatch
  /-- SPL token: `checked_add` overflow on the destination amount -/
  | overflow
deriving DecidableEq

/-- An account in the ledger: an SPL token account, a swap record of the
program at hand (`σ` is the program's `SwapInfo` type), or a token mint. -/
inductive AccountData (σ : Type) where
  | token (t : TokenAccount)
  | swap (s : σ)
  | mintAcc
deriving DecidableEq

abbrev Ledger (σ : Type) := Pubkey → Option (AccountData σ)

/-- Program-derived-address scheme: `find seeds = (address, bump)` models
`Pubkey::find_program_address`, `create seeds bump` models
`Pubkey::create_program_address` (`none` when the bump is invalid). -/
structure Pda where
  find : List Nat → Pubkey × Nat
  create : List Nat → Nat → Option Pubkey

section Ops

variable {σ : Type}

/-- Read the account at `a` as an SPL token account (Anchor
`Account<TokenAccount>` deserialization). -/
def getToken (l : Ledger σ) (a : Pubkey) : Except SwapError TokenAccount :=
  match l a with
  | some (.token t) => .ok t
  | some _ => .error .constraintViolation
  | none => .error .notFound

def setToken (l : Ledger σ) (a : Pubkey) (t : TokenAccount) : Ledger σ :=
  Function.update l a (some (.token t))

/-- The owner-signed arm of spl-token `process_transfer` (`validate_owner`
against the source's owner, then the balance moves unless it is a
self-transfer, with `checked_add` on the destination amount). -/
def ownerBranch (l : Ledger σ) (source dest authority : Pubkey)
    (s d : TokenAccount) (amount : Nat) (signed : Bool) : Except SwapError (Ledger σ) :=
  if authority = s.owner ∧ signed = true then
    if source = dest then pure l
    else if U64MAX < d.amount + amount then throw .overflow
    else pure (setToken (setToken l source { s with amount := s.amount - amount })
      dest { d with amount := d.amount + amount })
  else throw .ownerMismatch

/-- spl-token `process_transfer`, restricted to the modelled fields: balance
check, mint check, then the authority check — the delegate branch when the
source's delegate equals the authority (decrementing the delegated amount and
clearing the delegate when it reaches zero), the owner branch otherwise; a
self-transfer is a no-op; the destination amount is `checked_add`ed. `signed`
records whether the authority account carried a (possibly PDA-synthesised)
signature. -/
def transferTok (l : Ledger σ) (source dest authority : Pubkey) (amount : Nat)
    (signed : Bool) : Except SwapError (Ledger σ) := do
  let s ← getToken l source
  let d ← getToken l dest
  if s.amount < amount then throw .insufficientFunds
  else if s.mint ≠ d.mint then throw .mintMismatch
  -- `match delegate { Some(d) if authority == d => …, _ => owner branch }`
  -- is written as the equivalent test `delegate == Some(authority)`
  else if s.delegate = some authority then
    if signed = false then throw .ownerMismatch
    else if s.delegatedAmount < amount then throw .insufficientFunds
    else if source = dest then pure l
    else if U64MAX < d.amount + amount then throw .overflow
    else
      let rem := s.delegatedAmount - amount
      let s1 : TokenAccount :=
        { s with amount := s.amount - amount, delegatedAmount := rem,
                 delegate := if rem = 0 then none else some authority }
      pure (setToken (setToken l source s1) dest { d with amount := d.amount + amount })
  else ownerBranch l source dest authority s d amount signed

/-- spl-token `process_approve`, restricted to the modelled fields: the owner
must sign; sets the delegate and the delegated amount. -/
def approveTok (l : Ledger σ) (source delegate authority : Pubkey) (amount : Nat)
    (signed : Bool) : Except SwapError (Ledger σ) := do
  let s ← getToken l source
  if authority = s.owner ∧ signed = true then
    pure (setToken l source { s with delegate := some delegate, delegatedAmount := amount })
  else throw .ownerMismatch

/-- Solana transaction semantics: an instruction error rolls the whole
transaction back, so an `Except.error` outcome leaves the ledger unchanged. -/
def commit (r : Except SwapError (Ledger σ)) (l : Ledger σ) : Ledger σ :=
  match r with
  | .ok l2 => l2
  | .error _ => l

/-- Token balance of the account at `a`, when it is a token account. -/
def balance (l : Ledger σ) (a : Pubkey) : Option Nat :=
  match l a with
  | some (.token t) => some t.amount
  | _ => none

def isOkR {α : Type} (r : Except SwapError α) : Bool :=
  match r with
  | .ok _ => true
  | .error _ => false

def errOf {α : Type} (r : Except SwapError α) : Option SwapError :=
  match r with
  | .error e => some e
  | .ok _ => none

end Ops

/-! ## The delegation variant (src/delegate/src/lib.rs) -/

namespace Delegate

/-- `SwapInfo` account (delegate lib.rs 8-16). -/
structure SwapInfo where
  isInitialized : Bool
  poster : Pubkey
  posterSellAccount : Pubkey
  posterBuyAccount : Pubkey
  posterSellAmount : Nat
  posterBuyAmount : Nat
deriving DecidableEq

/-- Anchor zero-initialization of a freshly created `SwapInfo` account. -/
def SwapInfo.fresh : SwapInfo :=
  { isInitialized := false, poster := 0, posterSellAccount := 0,
    posterBuyAccount := 0, posterSellAmount := 0, posterBuyAmount := 0 }

abbrev L := Ledger SwapInfo

/-- The `init_if_needed` read of the `swap_info` slot (delegate lib.rs 30-38):
a fresh zeroed record if the account does not exist, the stored record if it
holds a program-owned `SwapInfo`, an error otherwise. -/
def swapSlot (l : L) (a : Pubkey) : Except SwapError SwapInfo :=
  match l a with
  | none => .ok SwapInfo.fresh
  | some (.swap s) => .ok s
  | some _ => .error .constraintViolation

/-- The `Account<SwapInfo>` read of an existing `swap_info` (delegate lib.rs
79-85): `NotFound` when no account exists at the address. -/
def getSwap (l : L) (a : Pubkey) : Except SwapError SwapInfo :=
  match l a with
  | some (.swap s) => .ok s
  | some _ => .error .constraintViolation
  | none => .error .notFound

/-- `initialize_swap` (delegate lib.rs 132-156) together with the Anchor
account validation of `PostSwap` (lib.rs 20-42), invoked in a transaction
signed by `poster`:
  * `sell_from` is a token account with `sell_from.owner == poster` (24-28);
  * `buy_to` is a token account (29);
  * `swap_info` is the PDA of seeds `[sell_from]` (35-36), created
    zero-initialized if absent (`init_if_needed`, 31), and must hold a
    program-owned `SwapInfo` if present (34);
  * handler: reject if `is_initialized` (133-135), fill the record (138-143),
    then SPL-approve `sell_amount` of `sell_from` to the record's address,
    signed by `poster` (146-153). -/
def postSwap (pda : Pda) (poster sellFromA buyToA swapA : Pubkey)
    (sellAmount buyAmount : Nat) (l : L) : Except SwapError L := do
  let sellFrom ← getToken l sellFromA
  if sellFrom.owner ≠ poster then throw .constraintViolation
  else do
  let _buyTo ← getToken l buyToA
  if swapA ≠ (pda.find [sellFromA]).1 then throw .constraintViolation
  else do
  let info ← swapSlot l swapA
  if info.isInitialized then throw .alreadyInitialized
  else
    let info2 : SwapInfo :=
      { isInitialized := true, poster := poster, posterSellAccount := sellFromA,
        posterBuyAccount := buyToA, posterSellAmount := sellAmount,
        posterBuyAmount := buyAmount }
    let l1 : L := Function.update l swapA (some (.swap info2))
    approveTok l1 sellFromA swapA poster sellAmount true

/-- `take_swap` (delegate lib.rs 158-181) together with the Anchor account
validation of `TakeSwap` (lib.rs 71-98), invoked in a transaction signed by
`taker`:
  * `taker_sell_from` is a token account with owner `taker` (75);
  * `taker_buy_to` is a token account (77-78);
  * `swap_info` must hold an existing `SwapInfo` and be the PDA of seeds
    `[swap_info.poster_sell_account]` (79-85); it is closed after the handler
    (`close = taker`);
  * `poster_sell_from` is the token account at address
    `swap_info.poster_sell_account`, with `owner == swap_info.poster` and
    `delegate == Some(swap_info)` (86-92);
  * `poster_buy_to` is the token account at `swap_info.poster_buy_account` (93-94);
  * handler: transfer `poster_sell_amount` from `poster_sell_from` to
    `taker_buy_to` with authority `swap_info`, PDA-signed with seeds
    `[poster_sell_account, bump]` (159-168); then transfer `poster_buy_amount`
    from `taker_sell_from` to `poster_buy_to` signed by `taker` (170-178). -/
def takeSwap (pda : Pda) (taker takerSellA takerBuyA swapA pSellA pBuyA : Pubkey)
    (bump : Nat) (l : L) : Except SwapError L := do
  let tSell ← getToken l takerSellA
  if tSell.owner ≠ taker then throw .constraintViolation
  else do
  let _tBuy ← getToken l takerBuyA
  let info ← getSwap l swapA
  if swapA ≠ (pda.find [info.posterSellAccount]).1 then throw .constraintViolation
  else do
  let pSell ← getToken l pSellA
  if pSellA ≠ info.posterSellAccount then throw .constraintViolation
  else if pSell.owner ≠ info.poster then throw .constraintViolation
  else if pSell.delegate ≠ some swapA then throw .constraintViolation
  else do
  let _pBuy ← getToken l pBuyA
  if pBuyA ≠ info.posterBuyAccount then throw .constraintViolation
  else do
  let l1 ← transferTok l pSellA takerBuyA swapA info.posterSellAmount
    (pda.create [info.posterSellAccount] bump == some swapA)
  let l2 ← transferTok l1 takerSellA pBuyA taker info.posterBuyAmount true
  pure (Function.update l2 swapA none)

end Delegate

/-! ## The escrow variant (src/escrow/src/lib.rs) -/

namespace Escrow

/-- `SwapInfo` account (escrow lib.rs 7-15). -/
structure SwapInfo where
  isInitialized : Bool
  poster : Pubkey
  escrowAccount : Pubkey
  posterBuyAccount : Pubkey
  posterSellAmount : Nat
  posterBuyAmount : Nat
deriving DecidableEq

/-- Anchor zero-initialization of a freshly created `SwapInfo` account. -/
def SwapInfo.fresh : SwapInfo :=
  { isInitialized := false, poster := 0, escrowAccount := 0,
    posterBuyAccount := 0, posterSellAmount := 0, posterBuyAmount := 0 }

abbrev L := Ledger SwapInfo

/-- The `init_if_needed` read of the `swap_info` slot (escrow lib.rs 30-38). -/
def swapSlot (l : L) (a : Pubkey) : Except SwapError SwapInfo :=
  match l a with
  | none => .ok SwapInfo.fresh
  | some (.swap s) => .ok s
  | some _ => .error .constraintViolation

/-- The `Account<SwapInfo>` read of an existing `swap_info` (escrow lib.rs
105-106): `NotFound` when no account exists at the address. -/
def getSwap (l : L) (a : Pubkey) : Except SwapError SwapInfo :=
  match l a with
  | some (.swap s) => .ok s
  | some _ => .error .constraintViolation
  | none => .error .notFound

/-- The `Account<Mint>` read (escrow lib.rs 49-52). -/
def getMint (l : L) (a : Pubkey) : Except SwapError Unit :=
  match l a with
  | some .mintAcc => .ok ()
  | some _ => .error .constraintViolation
  | none => .error .notFound

/-- `initialize_swap` (escrow lib.rs 150-174) together with the Anchor account
validation of `PostSwap` (lib.rs 19-57), invoked in a transaction signed by
`poster`:
  * `sell_from` is a token account with `sell_from.owner == poster` (24-28);
  * `buy_to` is a token account (29);
  * `swap_info` is the PDA of seeds `[swap_seed]` (35-36), created
    zero-initialized if absent (`init_if_needed`, 31);
  * `escrow` is the PDA of seeds `[swap_info]` (44-45) and is freshly `init`ed
    (40): creation fails if an account already exists there; the new token
    account has mint `mint` and authority the escrow account itself
    (`token::authority = escrow`, 42-43);
  * `mint` is a mint account with `sell_from.mint == mint` (49-52);
  * handler: reject if `is_initialized` (151-153), fill the record (156-161),
    then transfer `sell_amount` from `sell_from` to `escrow` signed by
    `poster` (164-171). -/
def postSwap (pda : Pda) (poster sellFromA buyToA swapA escrowA mintA : Pubkey)
    (swapSeed : Nat) (sellAmount buyAmount : Nat) (l : L) : Except SwapError L := do
  let sellFrom ← getToken l sellFromA
  if sellFrom.owner ≠ poster then throw .constraintViolation
  else do
  let _buyTo ← getToken l buyToA
  if swapA ≠ (pda.find [swapSeed]).1 then throw .constraintViolation
  else do
  let info ← swapSlot l swapA
  if escrowA ≠ (pda.find [swapA]).1 then throw .constraintViolation
  else if (l escrowA).isSome then throw .accountInUse
  else do
  let _mint ← getMint l mintA
  if sellFrom.mint ≠ mintA then throw .constraintViolation
  else if info.isInitialized then throw .alreadyInitialized
  else
    let l1 : L := setToken l escrowA
      { owner := escrowA, mint := mintA, amount := 0, delegate := none,
        delegatedAmount := 0 }
    let info2 : SwapInfo :=
      { isInitialized := true, poster := poster, escrowAccount := escrowA,
        posterBuyAccount := buyToA, posterSellAmount := sellAmount,
        posterBuyAmount := buyAmount }
    let l2 : L := Function.update l1 swapA (some (.swap info2))
    transferTok l2 sellFromA escrowA poster sellAmount true

/-- `take_swap` (escrow lib.rs 176-203) together with the Anchor account
validation of `TakeSwap` (lib.rs 94-117), invoked in a transaction signed by
`taker`:
  * `taker_sell_from` is a token account with owner `taker` (98-102);
  * `taker_buy_to` is a token account (103-104);
  * `swap_info` must hold an existing `SwapInfo` (105-106); it is closed after
    the handler (`close = taker`);
  * `escrow` is the token account at `swap_info.escrow_account` (107-111);
  * `poster_buy_to` is the token account at `swap_info.poster_buy_account` (112-113);
  * handler: recompute `(_, bump) = find_program_address([swap_info], ID)`
    (177-180); transfer `poster_sell_amount` from `escrow` to `taker_buy_to`
    with authority `escrow`, PDA-signed with seeds `[swap_info, bump]`
    (182-190); then transfer `poster_buy_amount` from `taker_sell_from` to
    `poster_buy_to` signed by `taker` (192-200). -/
def takeSwap (pda : Pda) (taker takerSellA takerBuyA swapA escrowArgA pBuyA : Pubkey)
    (l : L) : Except SwapError L := do
  let tSell ← getToken l takerSellA
  if tSell.owner ≠ taker then throw .constraintViolation
  else do
  let _tBuy ← getToken l takerBuyA
  let info ← getSwap l swapA
  let _esc ← getToken l escrowArgA
  if escrowArgA ≠ info.escrowAccount then throw .constraintViolation
  else do
  let _pBuy ← getToken l pBuyA
  if pBuyA ≠ info.posterBuyAccount then throw .constraintViolation
  else do
  let l1 ← transferTok l escrowArgA takerBuyA escrowArgA info.posterSellAmount
    (pda.create [swapA] (pda.find [swapA]).2 == some escrowArgA)
  let l2 ← transferTok l1 takerSellA pBuyA taker info.posterBuyAmount true
  pure (Function.update l2 swapA none)

end Escrow

/-- `post` immediately followed by the matching `take` (delegation variant):
the taker supplies the poster's own sell and buy accounts as stored in the
record. -/
def Delegate.postTake (pda : Pda) (poster taker sellFromA buyToA takerSellA takerBuyA swapA : Pubkey)
    (sellAmount buyAmount bump : Nat) (l : Delegate.L) : Delegate.L :=
  let lp := commit (Delegate.postSwap pda poster sellFromA buyToA swapA sellAmount buyAmount l) l
  commit (Delegate.takeSwap pda taker takerSellA takerBuyA swapA sellFromA buyToA bump lp) lp

/-- `post` immediately followed by the matching `take` (escrow variant). -/
def Escrow.postTake (pda : Pda)
    (poster taker sellFromA buyToA takerSellA takerBuyA swapA escrowA mintA : Pubkey)
    (swapSeed sellAmount buyAmount : Nat) (l : Escrow.L) : Escrow.L :=
  let lp := commit (Escrow.postSwap pda poster sellFromA buyToA swapA escrowA mintA
    swapSeed sellAmount buyAmount l) l
  commit (Escrow.takeSwap pda taker takerSellA takerBuyA swapA escrowA buyToA lp) lp

/-! ## Concrete instances (the 10 alpha / 7 beta scenario of
escrow/tests/integration.rs, used to instantiate the theorems below) -/

/-- A concrete derivation scheme: seeds `[11]` (the poster's sell account)
derive the delegation record address 31 with bump 7; seeds `[40]` (the
poster-chosen nonce) derive the escrow-variant record address 32 with bump 3;
seeds `[32]` (the record address) derive the holding-account address 33 with
bump 4. -/
def pda0 : Pda where
  find := fun s =>
    if s = [11] then (31, 7)
    else if s = [40] then (32, 3)
    else if s = [32] then (33, 4)
    else (90, 0)
  create := fun s b =>
    if s = [11] ∧ b = 7 then some 31
    else if s = [32] ∧ b = 4 then some 33
    else none

/-- Initial ledger for the delegation variant: poster 1 holds 10 alpha
(mint 21) in account 11 and an empty beta (mint 22) account 12; taker 2 holds
7 beta in account 13 and an empty alpha account 14. -/
def l0D : Delegate.L := fun a =>
  if a = 11 then some (.token ⟨1, 21, 10, none, 0⟩)
  else if a = 12 then some (.token ⟨1, 22, 0, none, 0⟩)
  else if a = 13 then some (.token ⟨2, 22, 7, none, 0⟩)
  else if a = 14 then some (.token ⟨2, 21, 0, none, 0⟩)
  else if a = 21 then some .mintAcc
  else if a = 22 then some .mintAcc
  else none

/-- The same initial ledger for the escrow variant. -/
def l0E : Escrow.L := fun a =>
  if a = 11 then some (.token ⟨1, 21, 10, none, 0⟩)
  else if a = 12 then some (.token ⟨1, 22, 0, none, 0⟩)
  else if a = 13 then some (.token ⟨2, 22, 7, none, 0⟩)
  else if a = 14 then some (.token ⟨2, 21, 0, none, 0⟩)
  else if a = 21 then some .mintAcc
  else if a = 22 then some .mintAcc
  else none

/-- Delegation-variant ledger after `post(sell 10 alpha, buy 7 beta)`. -/
def l1D : Delegate.L := commit (Delegate.postSwap pda0 1 11 12 31 10 7 l0D) l0D

/-- Delegation-variant ledger after the matching `take`. -/
def l2D : Delegate.L := commit (Delegate.takeSwap pda0 2 13 14 31 11 12 7 l1D) l1D

/-- Escrow-variant ledger after `post(seed 40, sell 10 alpha, buy 7 beta)`. -/
def l1E : Escrow.L := commit (Escrow.postSwap pda0 1 11 12 32 33 21 40 10 7 l0E) l0E

/-- Escrow-variant ledger after the matching `take`. -/
def l2E : Escrow.L := commit (Escrow.takeSwap pda0 2 13 14 32 33 12 l1E) l1E

/-- Delegation-variant ledger after `post` in which the poster has drained
the sell account out-of-band (the approval still stands, the funds are gone). -/
def drainedD : Delegate.L := fun a =>
  if a = 11 then some (.token ⟨1, 21, 0, some 31, 10⟩) else l1D a

/-! ## Basic lemmas about the monadic plumbing and the ledger -/

section BasicLemmas

variable {σ : Type}

theorem bindOkE {α β : Type} (a : α) (f : α → Except SwapError β) :
    (Except.ok a >>= f) = f a := rfl

theorem bindErrE {α β : Type} (e : SwapError) (f : α → Except SwapError β) :
    ((Except.error e : Except SwapError α) >>= f) = .error e := rfl

theorem pureE {α : Type} (a : α) : (pure a : Except SwapError α) = .ok a := rfl

theorem throwE {α : Type} (e : SwapError) : (throw e : Except SwapError α) = .error e := rfl

theorem bind_ok_inv {α β : Type} {x : Except SwapError α} {f : α → Except SwapError β}
    {b : β} (h : (x >>= f) = .ok b) : ∃ a, x = .ok a ∧ f a = .ok b := by
  cases x with
  | ok a => exact ⟨a, rfl, h⟩
  | error e => rw [bindErrE] at h; exact absurd h (by simp)

theorem getToken_token {l : Ledger σ} {a : Pubkey} {t : TokenAccount}
    (h : l a = some (.token t)) : getToken l a = .ok t := by
  simp [getToken, h]

theorem getToken_ok_inv {l : Ledger σ} {a : Pubkey} {t : TokenAccount}
    (h : getToken l a = .ok t) : l a = some (.token t) := by
  unfold getToken at h
  split at h
  · rename_i heq; cases h; exact heq
  · exact absurd h (by simp)
  · exact absurd h (by simp)

theorem setToken_self (l : Ledger σ) (a : Pubkey) (t : TokenAccount) :
    setToken l a t a = some (.token t) := by
  simp [setToken, Function.update]

theorem setToken_ne (l : Ledger σ) {a b : Pubkey} (t : TokenAccount) (h : b ≠ a) :
    setToken l a t b = l b := by
  simp [setToken, Function.update, h]

theorem update_ne {β : Pubkey → Type} (l : ∀ a, β a) {a b : Pubkey} (v : β a) (h : b ≠ a) :
    Function.update l a v b = l b := by
  simp [Function.update, h]

theorem commit_ok {l lf : Ledger σ} {r : Except SwapError (Ledger σ)} (h : r = .ok lf) :
    commit r l = lf := by rw [h]; rfl

theorem commit_not_ok {l : Ledger σ} {r : Except SwapError (Ledger σ)}
    (h : isOkR r = false) : commit r l = l := by
  cases r with
  | ok _ => simp [isOkR] at h
  | error _ => rfl

theorem commit_error {l : Ledger σ} {r : Except SwapError (Ledger σ)} {e : SwapError}
    (h : r = .error e) : commit r l = l := by rw [h]; rfl

theorem isOkR_of_ok {α : Type} {r : Except SwapError α} {a : α} (h : r = .ok a) :
    isOkR r = true := by rw [h]; rfl

theorem errOf_eq {α : Type} {r : Except SwapError α} {e : SwapError} (h : r = .error e) :
    errOf r = some e := by rw [h]; rfl

theorem not_ok_of_errOf {α : Type} {r : Except SwapError α} {e : SwapError}
    (h : errOf r = some e) : isOkR r = false := by
  cases r with
  | ok _ => simp [errOf] at h
  | error _ => rfl

theorem balance_eq {l : Ledger σ} {a : Pubkey} {t : TokenAccount}
    (h : l a = some (.token t)) : balance l a = some t.amount := by
  simp [balance, h]

theorem ne_of_some_none {l : Ledger σ} {a b : Pubkey} {v : AccountData σ}
    (ha : l a = some v) (hb : l b = none) : a ≠ b := by
  intro he; rw [he, hb] at ha; exact Option.noConfusion ha

theorem ne_of_token_swap {l : Ledger σ} {a b : Pubkey} {t : TokenAccount} {v : σ}
    (ha : l a = some (.token t)) (hb : l b = some (.swap v)) : a ≠ b := by
  intro he; rw [he, hb] at ha; simp at ha

end BasicLemmas

/-! ## Characterisation lemmas for the SPL token operations -/

section TokenLemmas

variable {σ : Type}

theorem ownerBranch_ok {l : Ledger σ} {source dest authority : Pubkey}
    {s d : TokenAccount} {amount : Nat}
    (hauth : authority = s.owner) (hne : source ≠ dest)
    (hov : d.amount + amount ≤ U64MAX) :
    ownerBranch l source dest authority s d amount true =
      .ok (setToken (setToken l source { s with amount := s.amount - amount })
        dest { d with amount := d.amount + amount }) := by
  rw [ownerBranch, if_pos ⟨hauth, rfl⟩, if_neg hne, if_neg (by omega), pureE]

theorem transferTok_owner_ok {l : Ledger σ} {source dest authority : Pubkey}
    {s d : TokenAccount} {amount : Nat}
    (hs : l source = some (.token s)) (hd : l dest = some (.token d))
    (hamt : amount ≤ s.amount) (hmint : s.mint = d.mint)
    (hdel : s.delegate = none) (hauth : authority = s.owner)
    (hne : source ≠ dest) (hov : d.amount + amount ≤ U64MAX) :
    transferTok l source dest authority amount true =
      .ok (setToken (setToken l source { s with amount := s.amount - amount })
        dest { d with amount := d.amount + amount }) := by
  rw [transferTok, getToken_token hs, bindOkE, getToken_token hd, bindOkE,
    if_neg (by omega), if_neg (by simp [hmint]), if_neg (by simp [hdel])]
  exact ownerBranch_ok hauth hne hov

theorem transferTok_delegated_ok {l : Ledger σ} {source dest authority : Pubkey}
    {s d : TokenAccount} {amount : Nat}
    (hs : l source = some (.token s)) (hd : l dest = some (.token d))
    (hamt : amount ≤ s.amount) (hmint : s.mint = d.mint)
    (hdel : s.delegate = some authority) (hda : amount ≤ s.delegatedAmount)
    (hne : source ≠ dest) (hov : d.amount + amount ≤ U64MAX) :
    transferTok l source dest authority amount true =
      .ok (setToken (setToken l source
          { s with amount := s.amount - amount,
                   delegatedAmount := s.delegatedAmount - amount,
                   delegate := if s.delegatedAmount - amount = 0 then none
                               else some authority })
        dest { d with amount := d.amount + amount }) := by
  rw [transferTok, getToken_token hs, bindOkE, getToken_token hd, bindOkE,
    if_neg (by omega), if_neg (by simp [hmint]), if_pos hdel, if_neg (by simp),
    if_neg (by omega), if_neg hne, if_neg (by omega), pureE]

theorem transferTok_insufficient {l : Ledger σ} {source dest authority : Pubkey}
    {s d : TokenAccount} {amount : Nat} {signed : Bool}
    (hs : l source = some (.token s)) (hd : l dest = some (.token d))
    (hamt : s.amount < amount) :
    transferTok l source dest authority amount signed = .error .insufficientFunds := by
  rw [transferTok, getToken_token hs, bindOkE, getToken_token hd, bindOkE, if_pos hamt, throwE]

theorem approveTok_ok {l : Ledger σ} {source delegate authority : Pubkey}
    {s : TokenAccount} {amount : Nat}
    (hs : l source = some (.token s)) (hauth : authority = s.owner) :
    approveTok l source delegate authority amount true =
      .ok (setToken l source { s with delegate := some delegate, delegatedAmount := amount }) := by
  rw [approveTok, getToken_token hs, bindOkE, if_pos ⟨hauth, rfl⟩, pureE]

/-- Footprint of a successful transfer: only `source` and `dest` change. -/
theorem transferTok_ok_footprint {l l2 : Ledger σ} {source dest authority : Pubkey}
    {amount : Nat} {signed : Bool}
    (h : transferTok l source dest authority amount signed = .ok l2) :
    ∀ r, r ≠ source → r ≠ dest → l2 r = l r := by
  intro r hrs hrd
  rw [transferTok] at h
  obtain ⟨s, hs, h⟩ := bind_ok_inv h
  obtain ⟨d, hd, h⟩ := bind_ok_inv h
  split at h
  · exact absurd h (by simp [throwE])
  split at h
  · exact absurd h (by simp [throwE])
  split at h
  · -- delegate branch
    split at h
    · exact absurd h (by simp [throwE])
    split at h
    · exact absurd h (by simp [throwE])
    split at h
    · rw [pureE] at h; cases h; rfl
    split at h
    · exact absurd h (by simp [throwE])
    · rw [pureE] at h; cases h; rw [setToken_ne _ _ hrd, setToken_ne _ _ hrs]
  · rw [ownerBranch] at h
    split at h
    · split at h
      · rw [pureE] at h; cases h; rfl
      split at h
      · exact absurd h (by simp [throwE])
      · rw [pureE] at h; cases h; rw [setToken_ne _ _ hrd, setToken_ne _ _ hrs]
    · exact absurd h (by simp [throwE])

/-- A successful transfer's endpoints are token accounts in the pre-state. -/
theorem transferTok_ok_endpoints {l l2 : Ledger σ} {source dest authority : Pubkey}
    {amount : Nat} {signed : Bool}
    (h : transferTok l source dest authority amount signed = .ok l2) :
    (∃ s, l source = some (.token s)) ∧ ∃ d, l dest = some (.token d) := by
  rw [transferTok] at h
  obtain ⟨s, hs, h⟩ := bind_ok_inv h
  obtain ⟨d, hd, _⟩ := bind_ok_inv h
  exact ⟨⟨s, getToken_ok_inv hs⟩, ⟨d, getToken_ok_inv hd⟩⟩

end TokenLemmas

/-! ## Lemmas about the delegation variant -/

namespace Delegate

theorem swapSlot_none {l : L} {a : Pubkey} (h : l a = none) :
    swapSlot l a = .ok SwapInfo.fresh := by simp [swapSlot, h]

theorem swapSlot_swap {l : L} {a : Pubkey} {s : SwapInfo}
    (h : l a = some (.swap s)) : swapSlot l a = .ok s := by simp [swapSlot, h]

theorem swapSlot_ok_inv {l : L} {a : Pubkey} {s : SwapInfo}
    (h : swapSlot l a = .ok s) :
    l a = none ∧ s = SwapInfo.fresh ∨ l a = some (.swap s) := by
  unfold swapSlot at h
  split at h
  · cases h; exact Or.inl ⟨by assumption, rfl⟩
  · cases h; exact Or.inr (by assumption)
  · exact absurd h (by simp)

theorem getSwap_swap {l : L} {a : Pubkey} {s : SwapInfo}
    (h : l a = some (.swap s)) : getSwap l a = .ok s := by simp [getSwap, h]

theorem getSwap_none {l : L} {a : Pubkey} (h : l a = none) :
    getSwap l a = .error .notFound := by simp [getSwap, h]

theorem getSwap_ok_inv {l : L} {a : Pubkey} {s : SwapInfo}
    (h : getSwap l a = .ok s) : l a = some (.swap s) := by
  unfold getSwap at h
  split at h
  · cases h; assumption
  · exact absurd h (by simp)
  · exact absurd h (by simp)

/-- Full execution of a successful `post` on a fresh record slot: the record
is created with exactly the given terms and the sell account's delegate is set
to the record's address for exactly `sellAmount`. -/
theorem postSwap_spec {pda : Pda} {poster sellFromA buyToA swapA : Pubkey}
    (sellAmount buyAmount : Nat) {l : L} {s0 b0 : TokenAccount}
    (hsell : l sellFromA = some (.token s0)) (hown : s0.owner = poster)
    (hbuy : l buyToA = some (.token b0))
    (hseed : swapA = (pda.find [sellFromA]).1)
    (hfresh : l swapA = none) :
    postSwap pda poster sellFromA buyToA swapA sellAmount buyAmount l =
      .ok (setToken (Function.update l swapA (some (.swap
          { isInitialized := true, poster := poster, posterSellAccount := sellFromA,
            posterBuyAccount := buyToA, posterSellAmount := sellAmount,
            posterBuyAmount := buyAmount })))
        sellFromA { s0 with delegate := some swapA, delegatedAmount := sellAmount }) := by
  have hne : sellFromA ≠ swapA := by
    intro h; rw [h, hfresh] at hsell; exact absurd hsell (by simp)
  rw [postSwap, getToken_token hsell, bindOkE, if_neg (by simp [hown]),
    getToken_token hbuy, bindOkE, if_neg (by simp [hseed]),
    swapSlot_none hfresh, bindOkE]
  rw [if_neg (by simp [SwapInfo.fresh])]
  exact approveTok_ok (by rw [update_ne _ _ hne]; exact hsell) hown.symm

/-- Full execution of a successful `take` against an existing record: the two
transfers move exactly the stored terms and the record is closed. -/
theorem takeSwap_spec {pda : Pda} {taker takerSellA takerBuyA swapA pSellA pBuyA : Pubkey}
    {bump : Nat} {l : L} {info : SwapInfo} {tS tB pS pB : TokenAccount}
    (hts : l takerSellA = some (.token tS)) (htso : tS.owner = taker)
    (htsd : tS.delegate = none)
    (htb : l takerBuyA = some (.token tB))
    (hsw : l swapA = some (.swap info))
    (hseed : swapA = (pda.find [info.posterSellAccount]).1)
    (hps : pSellA = info.posterSellAccount)
    (hpsl : l pSellA = some (.token pS)) (hpso : pS.owner = info.poster)
    (hpsd : pS.delegate = some swapA)
    (hpb : pBuyA = info.posterBuyAccount) (hpbl : l pBuyA = some (.token pB))
    (hsig : pda.create [info.posterSellAccount] bump = some swapA)
    (hamt1 : info.posterSellAmount ≤ pS.amount)
    (hda : info.posterSellAmount ≤ pS.delegatedAmount)
    (hamt2 : info.posterBuyAmount ≤ tS.amount)
    (hm1 : pS.mint = tB.mint) (hm2 : tS.mint = pB.mint)
    (hov1 : tB.amount + info.posterSellAmount ≤ U64MAX)
    (hov2 : pB.amount + info.posterBuyAmount ≤ U64MAX)
    (hd1 : pSellA ≠ takerBuyA) (hd2 : takerSellA ≠ pBuyA)
    (hd3 : takerSellA ≠ pSellA) (hd4 : takerSellA ≠ takerBuyA)
    (hd5 : pBuyA ≠ pSellA) (hd6 : pBuyA ≠ takerBuyA) :
    takeSwap pda taker takerSellA takerBuyA swapA pSellA pBuyA bump l =
      .ok (Function.update
        (setToken (setToken
          (setToken (setToken l pSellA
            { pS with amount := pS.amount - info.posterSellAmount,
                      delegatedAmount := pS.delegatedAmount - info.posterSellAmount,
                      delegate := if pS.delegatedAmount - info.posterSellAmount = 0
                                  then none else some swapA })
            takerBuyA { tB with amount := tB.amount + info.posterSellAmount })
          takerSellA { tS with amount := tS.amount - info.posterBuyAmount })
          pBuyA { pB with amount := pB.amount + info.posterBuyAmount })
        swapA none) := by
  rw [takeSwap, getToken_token hts, bindOkE, if_neg (by simp [htso]),
    getToken_token htb, bindOkE, getSwap_swap hsw, bindOkE,
    if_neg (by simp [hseed]), getToken_token hpsl, bindOkE,
    if_neg (by simp [hps]), if_neg (by simp [hpso]), if_neg (by simp [hpsd]),
    getToken_token hpbl, bindOkE, if_neg (by simp [hpb])]
  rw [show (pda.create [info.posterSellAccount] bump == some swapA) = true by
    simp [hsig]]
  rw [transferTok_delegated_ok hpsl htb hamt1 hm1 hpsd hda hd1 hov1, bindOkE]
  rw [transferTok_owner_ok
    (by rw [setToken_ne _ _ hd4, setToken_ne _ _ hd3]; exact hts)
    (by rw [setToken_ne _ _ hd6, setToken_ne _ _ hd5]; exact hpbl)
    hamt2 hm2 htsd htso.symm hd2 hov2, bindOkE, pureE]

/-- A second `post` against a live (initialized) record fails with the custom
`SwapInfoAlreadyInitialised` error. -/
theorem postSwap_alreadyInit {pda : Pda} {poster sellFromA buyToA swapA : Pubkey}
    (sellAmount buyAmount : Nat) {l : L} {s0 b0 : TokenAccount} {info : SwapInfo}
    (hsell : l sellFromA = some (.token s0)) (hown : s0.owner = poster)
    (hbuy : l buyToA = some (.token b0))
    (hseed : swapA = (pda.find [sellFromA]).1)
    (hsw : l swapA = some (.swap info)) (hinit : info.isInitialized = true) :
    postSwap pda poster sellFromA buyToA swapA sellAmount buyAmount l =
      .error .alreadyInitialized := by
  rw [postSwap, getToken_token hsell, bindOkE, if_neg (by simp [hown]),
    getToken_token hbuy, bindOkE, if_neg (by simp [hseed]),
    swapSlot_swap hsw, bindOkE, if_pos hinit, throwE]

/-- `take` against an absent record fails with `NotFound` (once the taker-side
accounts have passed their own checks). -/
theorem takeSwap_notFound {pda : Pda} {taker takerSellA takerBuyA swapA pSellA pBuyA : Pubkey}
    {bump : Nat} {l : L} {tS tB : TokenAccount}
    (hts : l takerSellA = some (.token tS)) (htso : tS.owner = taker)
    (htb : l takerBuyA = some (.token tB))
    (hswnone : l swapA = none) :
    takeSwap pda taker takerSellA takerBuyA swapA pSellA pBuyA bump l =
      .error .notFound := by
  rw [takeSwap, getToken_token hts, bindOkE, if_neg (by simp [htso]),
    getToken_token htb, bindOkE, getSwap_none hswnone, bindErrE]

/-- Inversion of a successful `post`: the record slot was fresh or held an
uninitialized record, the record address is the PDA of the sell account, the
new record carries exactly the given terms, the sell account's delegate was
set to the record for exactly `sellAmount`, and nothing else changed. -/
theorem postSwap_ok_inv {pda : Pda} {poster sellFromA buyToA swapA : Pubkey}
    {sellAmount buyAmount : Nat} {l lf : L}
    (h : postSwap pda poster sellFromA buyToA swapA sellAmount buyAmount l = .ok lf) :
    swapA = (pda.find [sellFromA]).1 ∧
    (∀ info : SwapInfo, l swapA = some (.swap info) → info.isInitialized = false) ∧
    (∃ s0, l sellFromA = some (.token s0) ∧ s0.owner = poster ∧
      lf sellFromA = some (.token { s0 with delegate := some swapA,
                                            delegatedAmount := sellAmount })) ∧
    lf swapA = some (.swap
      { isInitialized := true, poster := poster, posterSellAccount := sellFromA,
        posterBuyAccount := buyToA, posterSellAmount := sellAmount,
        posterBuyAmount := buyAmount }) ∧
    (∀ r, r ≠ swapA → r ≠ sellFromA → lf r = l r) := by
  rw [postSwap] at h
  obtain ⟨s0, hs0, h⟩ := bind_ok_inv h
  replace hs0 := getToken_ok_inv hs0
  split at h
  · exact absurd h (by simp [throwE])
  rename_i hown
  obtain ⟨b0, hb0, h⟩ := bind_ok_inv h
  split at h
  · exact absurd h (by simp [throwE])
  rename_i hseed
  obtain ⟨info, hslot, h⟩ := bind_ok_inv h
  split at h
  · exact absurd h (by simp [throwE])
  rename_i hinit
  have hne : sellFromA ≠ swapA := by
    intro he
    rcases swapSlot_ok_inv hslot with ⟨hnone, _⟩ | hsw
    · rw [he, hnone] at hs0; exact absurd hs0 (by simp)
    · rw [he, hsw] at hs0; simp at hs0
  rw [approveTok] at h
  obtain ⟨s1, hs1, h⟩ := bind_ok_inv h
  replace hs1 := getToken_ok_inv hs1
  rw [update_ne _ _ hne, hs0] at hs1
  injection hs1 with hs1
  injection hs1 with hs1
  subst hs1
  split at h
  · rename_i hcond
    rw [pureE] at h
    cases h
    refine ⟨not_not.mp hseed, ?_, ⟨s0, hs0, hcond.1.symm, ?_⟩, ?_, ?_⟩
    · intro i hi
      rcases swapSlot_ok_inv hslot with ⟨hnone, _⟩ | hsw
      · rw [hnone] at hi; cases hi
      · rw [hsw] at hi
        injection hi with hi
        injection hi with hi
        subst hi
        simpa using hinit
    · exact setToken_self _ _ _
    · rw [setToken_ne _ _ hne.symm, Function.update_same]
    · intro r hr1 hr2
      rw [setToken_ne _ _ hr2, update_ne _ _ hr1]
  · exact absurd h (by simp [throwE])

/-- Inversion of a successful `take`: a record existed, the record account is
gone afterwards, the four supplied spending accounts were token accounts, and
no account outside the record and the four token accounts changed. -/
theorem takeSwap_ok_inv {pda : Pda} {taker takerSellA takerBuyA swapA pSellA pBuyA : Pubkey}
    {bump : Nat} {l lf : L}
    (h : takeSwap pda taker takerSellA takerBuyA swapA pSellA pBuyA bump l = .ok lf) :
    (∃ info : SwapInfo, l swapA = some (.swap info)) ∧
    lf swapA = none ∧
    (∃ t, l takerSellA = some (.token t)) ∧
    (∃ t, l takerBuyA = some (.token t)) ∧
    (∃ t, l pSellA = some (.token t)) ∧
    (∃ t, l pBuyA = some (.token t)) ∧
    (∀ r, r ≠ swapA → r ≠ pSellA → r ≠ takerBuyA → r ≠ takerSellA → r ≠ pBuyA →
      lf r = l r) := by
  rw [takeSwap] at h
  obtain ⟨tS, htS, h⟩ := bind_ok_inv h
  replace htS := getToken_ok_inv htS
  split at h
  · exact absurd h (by simp [throwE])
  obtain ⟨tB, htB, h⟩ := bind_ok_inv h
  replace htB := getToken_ok_inv htB
  obtain ⟨info, hinfo, h⟩ := bind_ok_inv h
  replace hinfo := getSwap_ok_inv hinfo
  split at h
  · exact absurd h (by simp [throwE])
  obtain ⟨pS, hpS, h⟩ := bind_ok_inv h
  replace hpS := getToken_ok_inv hpS
  split at h
  · exact absurd h (by simp [throwE])
  split at h
  · exact absurd h (by simp [throwE])
  split at h
  · exact absurd h (by simp [throwE])
  obtain ⟨pB, hpB, h⟩ := bind_ok_inv h
  replace hpB := getToken_ok_inv hpB
  split at h
  · exact absurd h (by simp [throwE])
  obtain ⟨l1, htr1, h⟩ := bind_ok_inv h
  obtain ⟨l2, htr2, h⟩ := bind_ok_inv h
  rw [pureE] at h
  cases h
  refine ⟨⟨info, hinfo⟩, Function.update_same _ _ _, ⟨tS, htS⟩, ⟨tB, htB⟩,
    ⟨pS, hpS⟩, ⟨pB, hpB⟩, ?_⟩
  intro r hr1 hr2 hr3 hr4 hr5
  rw [update_ne _ _ hr1, transferTok_ok_footprint htr2 r hr4 hr5,
    transferTok_ok_footprint htr1 r hr2 hr3]

/-- `take` supplying a poster sell account whose address differs from the
record's stored `poster_sell_account` fails the `address =` constraint. -/
theorem takeSwap_wrongSell {pda : Pda} {taker takerSellA takerBuyA swapA pSellA pBuyA : Pubkey}
    {bump : Nat} {l : L} {info : SwapInfo} {tS tB pS : TokenAccount}
    (hts : l takerSellA = some (.token tS)) (htso : tS.owner = taker)
    (htb : l takerBuyA = some (.token tB))
    (hsw : l swapA = some (.swap info))
    (hseed : swapA = (pda.find [info.posterSellAccount]).1)
    (hpsl : l pSellA = some (.token pS))
    (hne : pSellA ≠ info.posterSellAccount) :
    takeSwap pda taker takerSellA takerBuyA swapA pSellA pBuyA bump l =
      .error .constraintViolation := by
  rw [takeSwap, getToken_token hts, bindOkE, if_neg (by simp [htso]),
    getToken_token htb, bindOkE, getSwap_swap hsw, bindOkE,
    if_neg (by simp [hseed]), getToken_token hpsl, bindOkE, if_pos hne, throwE]

/-- `take` against a sell account whose delegate is no longer exactly the
record's address (approval revoked or reassigned) fails the
`poster_sell_from.delegate == COption::Some(swap_info.key())` constraint. -/
theorem takeSwap_wrongDelegate {pda : Pda} {taker takerSellA takerBuyA swapA pSellA pBuyA : Pubkey}
    {bump : Nat} {l : L} {info : SwapInfo} {tS tB pS : TokenAccount}
    (hts : l takerSellA = some (.token tS)) (htso : tS.owner = taker)
    (htb : l takerBuyA = some (.token tB))
    (hsw : l swapA = some (.swap info))
    (hseed : swapA = (pda.find [info.posterSellAccount]).1)
    (hps : pSellA = info.posterSellAccount)
    (hpsl : l pSellA = some (.token pS)) (hpso : pS.owner = info.poster)
    (hpsd : pS.delegate ≠ some swapA) :
    takeSwap pda taker takerSellA takerBuyA swapA pSellA pBuyA bump l =
      .error .constraintViolation := by
  rw [takeSwap, getToken_token hts, bindOkE, if_neg (by simp [htso]),
    getToken_token htb, bindOkE, getSwap_swap hsw, bindOkE,
    if_neg (by simp [hseed]), getToken_token hpsl, bindOkE,
    if_neg (by simp [hps]), if_neg (by simp [hpso]), if_pos hpsd, throwE]

/-- `take` supplying a poster buy account whose address differs from the
record's stored `poster_buy_account` fails the `address =` constraint. -/
theorem takeSwap_wrongBuy {pda : Pda} {taker takerSellA takerBuyA swapA pSellA pBuyA : Pubkey}
    {bump : Nat} {l : L} {info : SwapInfo} {tS tB pS pB : TokenAccount}
    (hts : l takerSellA = some (.token tS)) (htso : tS.owner = taker)
    (htb : l takerBuyA = some (.token tB))
    (hsw : l swapA = some (.swap info))
    (hseed : swapA = (pda.find [info.posterSellAccount]).1)
    (hps : pSellA = info.posterSellAccount)
    (hpsl : l pSellA = some (.token pS)) (hpso : pS.owner = info.poster)
    (hpsd : pS.delegate = some swapA)
    (hpbl : l pBuyA = some (.token pB))
    (hne : pBuyA ≠ info.posterBuyAccount) :
    takeSwap pda taker takerSellA takerBuyA swapA pSellA pBuyA bump l =
      .error .constraintViolation := by
  rw [takeSwap, getToken_token hts, bindOkE, if_neg (by simp [htso]),
    getToken_token htb, bindOkE, getSwap_swap hsw, bindOkE,
    if_neg (by simp [hseed]), getToken_token hpsl, bindOkE,
    if_neg (by simp [hps]), if_neg (by simp [hpso]), if_neg (by simp [hpsd]),
    getToken_token hpbl, bindOkE, if_pos hne, throwE]

/-- If `take` passes all account validation but the poster's sell account no
longer holds `posterSellAmount` tokens, the first transfer fails and the whole
`take` aborts with `InsufficientFunds`. -/
theorem takeSwap_insufficient {pda : Pda} {taker takerSellA takerBuyA swapA pSellA pBuyA : Pubkey}
    (bump : Nat) {l : L} {info : SwapInfo} {tS tB pS : TokenAccount}
    (hts : l takerSellA = some (.token tS)) (htso : tS.owner = taker)
    (htb : l takerBuyA = some (.token tB))
    (hsw : l swapA = some (.swap info))
    (hseed : swapA = (pda.find [info.posterSellAccount]).1)
    (hps : pSellA = info.posterSellAccount)
    (hpsl : l pSellA = some (.token pS)) (hpso : pS.owner = info.poster)
    (hpsd : pS.delegate = some swapA)
    (hpb : pBuyA = info.posterBuyAccount) (hpbl : ∃ pB, l pBuyA = some (.token pB))
    (hlow : pS.amount < info.posterSellAmount) :
    takeSwap pda taker takerSellA takerBuyA swapA pSellA pBuyA bump l =
      .error .insufficientFunds := by
  obtain ⟨pB, hpbl⟩ := hpbl
  rw [takeSwap, getToken_token hts, bindOkE, if_neg (by simp [htso]),
    getToken_token htb, bindOkE, getSwap_swap hsw, bindOkE,
    if_neg (by simp [hseed]), getToken_token hpsl, bindOkE,
    if_neg (by simp [hps]), if_neg (by simp [hpso]), if_neg (by simp [hpsd]),
    getToken_token hpbl, bindOkE, if_neg (by simp [hpb]),
    transferTok_insufficient hpsl htb hlow, bindErrE]

end Delegate

/-! ## Extra generic transfer lemmas used by the escrow variant -/

section TokenLemmas2

variable {σ : Type}

theorem setToken_token_at (l : Ledger σ) (a b : Pubkey) (t : TokenAccount)
    (h : ∃ u, l b = some (.token u)) : ∃ u, setToken l a t b = some (.token u) := by
  by_cases hab : b = a
  · subst hab; exact ⟨t, setToken_self _ _ _⟩
  · rw [setToken_ne _ _ hab]; exact h

/-- A successful transfer keeps every token account a token account. -/
theorem transferTok_ok_keepsToken {l l2 : Ledger σ} {source dest authority : Pubkey}
    {amount : Nat} {signed : Bool}
    (h : transferTok l source dest authority amount signed = .ok l2) :
    ∀ r, (∃ u, l r = some (.token u)) → ∃ u, l2 r = some (.token u) := by
  intro r hr
  rw [transferTok] at h
  obtain ⟨s, hs, h⟩ := bind_ok_inv h
  obtain ⟨d, hd, h⟩ := bind_ok_inv h
  split at h
  · exact absurd h (by simp [throwE])
  split at h
  · exact absurd h (by simp [throwE])
  split at h
  · split at h
    · exact absurd h (by simp [throwE])
    split at h
    · exact absurd h (by simp [throwE])
    split at h
    · rw [pureE] at h; cases h; exact hr
    split at h
    · exact absurd h (by simp [throwE])
    · rw [pureE] at h; cases h
      exact setToken_token_at _ _ _ _ (setToken_token_at _ _ _ _ hr)
  · rw [ownerBranch] at h
    split at h
    · split at h
      · rw [pureE] at h; cases h; exact hr
      split at h
      · exact absurd h (by simp [throwE])
      · rw [pureE] at h; cases h
        exact setToken_token_at _ _ _ _ (setToken_token_at _ _ _ _ hr)
    · exact absurd h (by simp [throwE])

/-- Amount accounting of a successful transfer between distinct accounts:
exactly `amount` leaves the source and arrives at the destination. -/
theorem transferTok_ok_amounts {l l2 : Ledger σ} {source dest authority : Pubkey}
    {amount : Nat} {signed : Bool}
    (h : transferTok l source dest authority amount signed = .ok l2)
    (hne : source ≠ dest) :
    ∃ s d, l source = some (.token s) ∧ l dest = some (.token d) ∧
      amount ≤ s.amount ∧ s.mint = d.mint ∧
      (∃ s1, l2 source = some (.token s1) ∧ s1.amount = s.amount - amount ∧
        s1.mint = s.mint ∧ s1.owner = s.owner) ∧
      l2 dest = some (.token { d with amount := d.amount + amount }) := by
  rw [transferTok] at h
  obtain ⟨s, hs, h⟩ := bind_ok_inv h
  replace hs := getToken_ok_inv hs
  obtain ⟨d, hd, h⟩ := bind_ok_inv h
  replace hd := getToken_ok_inv hd
  refine ⟨s, d, hs, hd, ?_⟩
  simp only [if_neg hne] at h
  split at h
  · exact absurd h (by simp [throwE])
  rename_i hamt
  split at h
  · exact absurd h (by simp [throwE])
  rename_i hmint
  have hmint2 : s.mint = d.mint := not_not.mp hmint
  split at h
  · split at h
    · exact absurd h (by simp [throwE])
    split at h
    · exact absurd h (by simp [throwE])
    split at h
    · exact absurd h (by simp [throwE])
    · rw [pureE] at h; cases h
      refine ⟨by omega, hmint2,
        ⟨{ s with
            amount := s.amount - amount
            delegatedAmount := s.delegatedAmount - amount
            delegate := if s.delegatedAmount - amount = 0 then none
                        else some authority }, ?_, rfl, rfl, rfl⟩, ?_⟩
      · rw [setToken_ne _ _ hne, setToken_self]
      · rw [setToken_self]
  · rw [ownerBranch] at h
    simp only [if_neg hne] at h
    split at h
    · split at h
      · exact absurd h (by simp [throwE])
      · rw [pureE] at h; cases h
        refine ⟨by omega, hmint2,
          ⟨{ s with amount := s.amount - amount }, ?_, rfl, rfl, rfl⟩, ?_⟩
        · rw [setToken_ne _ _ hne, setToken_self]
        · rw [setToken_self]
    · exact absurd h (by simp [throwE])

end TokenLemmas2

/-! ## Lemmas about the escrow variant -/

namespace Escrow

theorem swapSlot_noneE {l : L} {a : Pubkey} (h : l a = none) :
    swapSlot l a = .ok SwapInfo.fresh := by simp [swapSlot, h]

theorem swapSlot_swapE {l : L} {a : Pubkey} {s : SwapInfo}
    (h : l a = some (.swap s)) : swapSlot l a = .ok s := by simp [swapSlot, h]

theorem swapSlot_ok_invE {l : L} {a : Pubkey} {s : SwapInfo}
    (h : swapSlot l a = .ok s) :
    l a = none ∧ s = SwapInfo.fresh ∨ l a = some (.swap s) := by
  unfold swapSlot at h
  split at h
  · cases h; exact Or.inl ⟨by assumption, rfl⟩
  · cases h; exact Or.inr (by assumption)
  · exact absurd h (by simp)

theorem getSwap_swapE {l : L} {a : Pubkey} {s : SwapInfo}
    (h : l a = some (.swap s)) : getSwap l a = .ok s := by simp [getSwap, h]

theorem getSwap_noneE {l : L} {a : Pubkey} (h : l a = none) :
    getSwap l a = .error .notFound := by simp [getSwap, h]

theorem getSwap_ok_invE {l : L} {a : Pubkey} {s : SwapInfo}
    (h : getSwap l a = .ok s) : l a = some (.swap s) := by
  unfold getSwap at h
  split at h
  · cases h; assumption
  · exact absurd h (by simp)
  · exact absurd h (by simp)

theorem getMint_mint {l : L} {a : Pubkey} (h : l a = some .mintAcc) :
    getMint l a = .ok () := by simp [getMint, h]

/-- Full execution of a successful escrow `post` on a fresh record slot: the
holding account is created with the record's address as derivation seed and
itself as authority, exactly `sellAmount` moves from the seller into it, and
the record stores exactly the given terms. -/
theorem postSwap_specE {pda : Pda} {poster sellFromA buyToA swapA escrowA mintA : Pubkey}
    {swapSeed : Nat} (sellAmount buyAmount : Nat) {l : L} {s0 b0 : TokenAccount}
    (hsell : l sellFromA = some (.token s0)) (hown : s0.owner = poster)
    (hdel : s0.delegate = none)
    (hbuy : l buyToA = some (.token b0))
    (hseed : swapA = (pda.find [swapSeed]).1)
    (hfresh : l swapA = none)
    (hesc : escrowA = (pda.find [swapA]).1)
    (hescnone : l escrowA = none)
    (hneq : escrowA ≠ swapA)
    (hmint : l mintA = some .mintAcc)
    (hsm : s0.mint = mintA)
    (hamt : sellAmount ≤ s0.amount)
    (hov : sellAmount ≤ U64MAX) :
    postSwap pda poster sellFromA buyToA swapA escrowA mintA swapSeed
        sellAmount buyAmount l =
      .ok (setToken (setToken
        (Function.update (setToken l escrowA ⟨escrowA, mintA, 0, none, 0⟩)
          swapA (some (.swap
            { isInitialized := true, poster := poster, escrowAccount := escrowA,
              posterBuyAccount := buyToA, posterSellAmount := sellAmount,
              posterBuyAmount := buyAmount })))
        sellFromA { s0 with amount := s0.amount - sellAmount })
        escrowA ⟨escrowA, mintA, 0 + sellAmount, none, 0⟩) := by
  have hne1 : sellFromA ≠ swapA := by
    intro h; rw [h, hfresh] at hsell; exact absurd hsell (by simp)
  have hne2 : sellFromA ≠ escrowA := by
    intro h; rw [h, hescnone] at hsell; exact absurd hsell (by simp)
  rw [postSwap, getToken_token hsell, bindOkE, if_neg (by simp [hown]),
    getToken_token hbuy, bindOkE, if_neg (by simp [hseed]),
    swapSlot_noneE hfresh, bindOkE, if_neg (by simp [hesc]),
    if_neg (by simp [hescnone]), getMint_mint hmint, bindOkE,
    if_neg (by simp [hsm]), if_neg (by simp [SwapInfo.fresh])]
  rw [transferTok_owner_ok
    (by rw [update_ne _ _ hne1, setToken_ne _ _ hne2]; exact hsell)
    (by rw [update_ne _ _ hneq, setToken_self])
    hamt hsm hdel hown.symm hne2 (by simpa using hov)]

/-- Full execution of a successful escrow `take`: exactly the stored terms
move (escrow to taker, taker to poster) and the record is closed — but the
holding account is not. -/
theorem takeSwap_specE {pda : Pda} {taker takerSellA takerBuyA swapA escrowArgA pBuyA : Pubkey}
    {l : L} {info : SwapInfo} {tS tB eT pB : TokenAccount}
    (hts : l takerSellA = some (.token tS)) (htso : tS.owner = taker)
    (htsd : tS.delegate = none)
    (htb : l takerBuyA = some (.token tB))
    (hsw : l swapA = some (.swap info))
    (hesc : escrowArgA = info.escrowAccount)
    (hescl : l escrowArgA = some (.token eT)) (heto : eT.owner = escrowArgA)
    (hetd : eT.delegate = none)
    (hpb : pBuyA = info.posterBuyAccount) (hpbl : l pBuyA = some (.token pB))
    (hsig : pda.create [swapA] ((pda.find [swapA]).2) = some escrowArgA)
    (hamt1 : info.posterSellAmount ≤ eT.amount)
    (hamt2 : info.posterBuyAmount ≤ tS.amount)
    (hm1 : eT.mint = tB.mint) (hm2 : tS.mint = pB.mint)
    (hov1 : tB.amount + info.posterSellAmount ≤ U64MAX)
    (hov2 : pB.amount + info.posterBuyAmount ≤ U64MAX)
    (hd1 : escrowArgA ≠ takerBuyA) (hd2 : takerSellA ≠ pBuyA)
    (hd3 : takerSellA ≠ escrowArgA) (hd4 : takerSellA ≠ takerBuyA)
    (hd5 : pBuyA ≠ escrowArgA) (hd6 : pBuyA ≠ takerBuyA) :
    takeSwap pda taker takerSellA takerBuyA swapA escrowArgA pBuyA l =
      .ok (Function.update
        (setToken (setToken
          (setToken (setToken l escrowArgA
            { eT with amount := eT.amount - info.posterSellAmount })
            takerBuyA { tB with amount := tB.amount + info.posterSellAmount })
          takerSellA { tS with amount := tS.amount - info.posterBuyAmount })
          pBuyA { pB with amount := pB.amount + info.posterBuyAmount })
        swapA none) := by
  rw [takeSwap, getToken_token hts, bindOkE, if_neg (by simp [htso]),
    getToken_token htb, bindOkE, getSwap_swapE hsw, bindOkE,
    getToken_token hescl, bindOkE, if_neg (by simp [hesc]),
    getToken_token hpbl, bindOkE, if_neg (by simp [hpb])]
  rw [show (pda.create [swapA] ((pda.find [swapA]).2) == some escrowArgA) = true by
    simp [hsig]]
  rw [transferTok_owner_ok hescl htb hamt1 hm1 hetd heto.symm hd1 hov1, bindOkE]
  rw [transferTok_owner_ok
    (by rw [setToken_ne _ _ hd4, setToken_ne _ _ hd3]; exact hts)
    (by rw [setToken_ne _ _ hd6, setToken_ne _ _ hd5]; exact hpbl)
    hamt2 hm2 htsd htso.symm hd2 hov2, bindOkE, pureE]

/-- A second escrow `post` with the same seed while the first post's record
and holding account are live fails when `init`ing the holding account — with
an account-in-use error, not with `SwapInfoAlreadyInitialised`: the handler's
`is_initialized` check is never reached. -/
theorem postSwap_inUse {pda : Pda} {poster sellFromA buyToA swapA escrowA : Pubkey}
    (mintA : Pubkey) {swapSeed : Nat} (sellAmount buyAmount : Nat) {l : L}
    {s0 b0 : TokenAccount} {info : SwapInfo}
    (hsell : l sellFromA = some (.token s0)) (hown : s0.owner = poster)
    (hbuy : l buyToA = some (.token b0))
    (hseed : swapA = (pda.find [swapSeed]).1)
    (hsw : l swapA = some (.swap info))
    (hesc : escrowA = (pda.find [swapA]).1)
    (hescsome : (l escrowA).isSome = true) :
    postSwap pda poster sellFromA buyToA swapA escrowA mintA swapSeed
        sellAmount buyAmount l = .error .accountInUse := by
  rw [postSwap, getToken_token hsell, bindOkE, if_neg (by simp [hown]),
    getToken_token hbuy, bindOkE, if_neg (by simp [hseed]),
    swapSlot_swapE hsw, bindOkE, if_neg (by simp [hesc]), if_pos hescsome, throwE]

/-- An escrow `post` whose seller sell account has a different mint than the
supplied `mint` account fails the `sell_from.mint == mint.key()` constraint. -/
theorem postSwap_mintMismatch {pda : Pda} {poster sellFromA buyToA swapA escrowA mintA : Pubkey}
    {swapSeed : Nat} (sellAmount buyAmount : Nat) {l : L} {s0 b0 : TokenAccount}
    (hsell : l sellFromA = some (.token s0)) (hown : s0.owner = poster)
    (hbuy : l buyToA = some (.token b0))
    (hseed : swapA = (pda.find [swapSeed]).1)
    (hfresh : l swapA = none)
    (hesc : escrowA = (pda.find [swapA]).1)
    (hescnone : l escrowA = none)
    (hmint : l mintA = some .mintAcc)
    (hsm : s0.mint ≠ mintA) :
    postSwap pda poster sellFromA buyToA swapA escrowA mintA swapSeed
        sellAmount buyAmount l = .error .constraintViolation := by
  rw [postSwap, getToken_token hsell, bindOkE, if_neg (by simp [hown]),
    getToken_token hbuy, bindOkE, if_neg (by simp [hseed]),
    swapSlot_noneE hfresh, bindOkE, if_neg (by simp [hesc]),
    if_neg (by simp [hescnone]), getMint_mint hmint, bindOkE, if_pos hsm, throwE]

/-- Escrow `take` against an absent record fails with `NotFound` (once the
taker-side accounts have passed their own checks). -/
theorem takeSwap_notFoundE {pda : Pda} {taker takerSellA takerBuyA swapA escrowArgA pBuyA : Pubkey}
    {l : L} {tS tB : TokenAccount}
    (hts : l takerSellA = some (.token tS)) (htso : tS.owner = taker)
    (htb : l takerBuyA = some (.token tB))
    (hswnone : l swapA = none) :
    takeSwap pda taker takerSellA takerBuyA swapA escrowArgA pBuyA l =
      .error .notFound := by
  rw [takeSwap, getToken_token hts, bindOkE, if_neg (by simp [htso]),
    getToken_token htb, bindOkE, getSwap_noneE hswnone, bindErrE]

/-- Inversion of a successful escrow `post`: the record slot was fresh or held
an uninitialized record, both derivations hold, the holding account address
was previously unoccupied, the seller's mint equals the supplied mint, the new
record carries exactly the given terms, exactly `sellAmount` left the seller
and sits in the holding account, and nothing else changed. -/
theorem postSwap_ok_invE {pda : Pda} {poster sellFromA buyToA swapA escrowA mintA : Pubkey}
    {swapSeed : Nat} {sellAmount buyAmount : Nat} {l lf : L}
    (h : postSwap pda poster sellFromA buyToA swapA escrowA mintA swapSeed
        sellAmount buyAmount l = .ok lf) :
    swapA = (pda.find [swapSeed]).1 ∧
    escrowA = (pda.find [swapA]).1 ∧
    l escrowA = none ∧
    (∀ info : SwapInfo, l swapA = some (.swap info) → info.isInitialized = false) ∧
    (∃ s0, l sellFromA = some (.token s0) ∧ s0.owner = poster ∧ s0.mint = mintA ∧
      sellAmount ≤ s0.amount ∧
      (∃ s1, lf sellFromA = some (.token s1) ∧ s1.amount = s0.amount - sellAmount)) ∧
    lf swapA = some (.swap
      { isInitialized := true, poster := poster, escrowAccount := escrowA,
        posterBuyAccount := buyToA, posterSellAmount := sellAmount,
        posterBuyAmount := buyAmount }) ∧
    lf escrowA = some (.token ⟨escrowA, mintA, 0 + sellAmount, none, 0⟩) ∧
    (∀ r, r ≠ swapA → r ≠ escrowA → r ≠ sellFromA → lf r = l r) := by
  rw [postSwap] at h
  obtain ⟨s0, hs0, h⟩ := bind_ok_inv h
  replace hs0 := getToken_ok_inv hs0
  split at h
  · exact absurd h (by simp [throwE])
  rename_i hown
  obtain ⟨b0, hb0, h⟩ := bind_ok_inv h
  split at h
  · exact absurd h (by simp [throwE])
  rename_i hseed
  obtain ⟨info, hslot, h⟩ := bind_ok_inv h
  split at h
  · exact absurd h (by simp [throwE])
  rename_i hesc
  split at h
  · exact absurd h (by simp [throwE])
  rename_i hescnone
  replace hescnone : l escrowA = none := by
    cases he : l escrowA
    · rfl
    · rw [he] at hescnone; simp at hescnone
  obtain ⟨u, hu, h⟩ := bind_ok_inv h
  split at h
  · exact absurd h (by simp [throwE])
  rename_i hsm
  replace hsm : s0.mint = mintA := not_not.mp hsm
  split at h
  · exact absurd h (by simp [throwE])
  rename_i hinit
  have hne1 : sellFromA ≠ swapA := by
    intro he
    rcases swapSlot_ok_invE hslot with ⟨hnone, _⟩ | hsw
    · rw [he, hnone] at hs0; exact absurd hs0 (by simp)
    · rw [he, hsw] at hs0; simp at hs0
  have hne2 : sellFromA ≠ escrowA := by
    intro he; rw [he, hescnone] at hs0; exact absurd hs0 (by simp)
  obtain ⟨sx, dx, hsx, hdx, hle, hmx, ⟨s1, hs1, hs1a, _, _⟩, hdest⟩ :=
    transferTok_ok_amounts h hne2
  have hne3 : escrowA ≠ swapA := by
    intro he
    rw [he, Function.update_same] at hdx
    simp at hdx
  rw [update_ne _ _ hne1, setToken_ne _ _ hne2, hs0] at hsx
  injection hsx with hsx
  injection hsx with hsx
  subst hsx
  rw [update_ne _ _ hne3, setToken_self] at hdx
  injection hdx with hdx
  injection hdx with hdx
  subst hdx
  have hfoot := transferTok_ok_footprint h
  refine ⟨not_not.mp hseed, not_not.mp hesc, hescnone, ?_, ?_, ?_, ?_, ?_⟩
  · intro i hi
    rcases swapSlot_ok_invE hslot with ⟨hnone, _⟩ | hsw
    · rw [hnone] at hi; cases hi
    · rw [hsw] at hi
      injection hi with hi
      injection hi with hi
      subst hi
      simpa using hinit
  · exact ⟨s0, hs0, not_not.mp hown, hsm, hle, s1, hs1, hs1a⟩
  · rw [hfoot swapA (Ne.symm hne1) hne3.symm, Function.update_same]
  · exact hdest
  · intro r hr1 hr2 hr3
    rw [hfoot r hr3 hr2, update_ne _ _ hr1, setToken_ne _ _ hr2]

/-- Inversion of a successful escrow `take`: a record existed, the record
account is gone afterwards, the holding account still exists as a token
account, and no account outside the record, the holding account and the three
other token accounts changed. -/
theorem takeSwap_ok_invE {pda : Pda} {taker takerSellA takerBuyA swapA escrowArgA pBuyA : Pubkey}
    {l lf : L}
    (h : takeSwap pda taker takerSellA takerBuyA swapA escrowArgA pBuyA l = .ok lf) :
    (∃ info : SwapInfo, l swapA = some (.swap info)) ∧
    lf swapA = none ∧
    (∃ t, l takerSellA = some (.token t)) ∧
    (∃ t, l takerBuyA = some (.token t)) ∧
    (∃ t, l escrowArgA = some (.token t)) ∧
    (∃ t, l pBuyA = some (.token t)) ∧
    (∃ t, lf escrowArgA = some (.token t)) ∧
    (∀ r, r ≠ swapA → r ≠ escrowArgA → r ≠ takerBuyA → r ≠ takerSellA → r ≠ pBuyA →
      lf r = l r) := by
  rw [takeSwap] at h
  obtain ⟨tS, htS, h⟩ := bind_ok_inv h
  replace htS := getToken_ok_inv htS
  split at h
  · exact absurd h (by simp [throwE])
  obtain ⟨tB, htB, h⟩ := bind_ok_inv h
  replace htB := getToken_ok_inv htB
  obtain ⟨info, hinfo, h⟩ := bind_ok_inv h
  replace hinfo := getSwap_ok_invE hinfo
  obtain ⟨eT, heT, h⟩ := bind_ok_inv h
  replace heT := getToken_ok_inv heT
  split at h
  · exact absurd h (by simp [throwE])
  obtain ⟨pB, hpB, h⟩ := bind_ok_inv h
  replace hpB := getToken_ok_inv hpB
  split at h
  · exact absurd h (by simp [throwE])
  obtain ⟨l1, htr1, h⟩ := bind_ok_inv h
  obtain ⟨l2, htr2, h⟩ := bind_ok_inv h
  rw [pureE] at h
  cases h
  have hesc2 : ∃ t, l2 escrowArgA = some (.token t) :=
    transferTok_ok_keepsToken htr2 _ (transferTok_ok_keepsToken htr1 _ ⟨eT, heT⟩)
  have hswe : swapA ≠ escrowArgA := by
    intro he; rw [he, heT] at hinfo; cases hinfo
  refine ⟨⟨info, hinfo⟩, Function.update_same _ _ _, ⟨tS, htS⟩, ⟨tB, htB⟩,
    ⟨eT, heT⟩, ⟨pB, hpB⟩, ?_, ?_⟩
  · obtain ⟨t, ht⟩ := hesc2
    exact ⟨t, by rw [update_ne _ _ (Ne.symm hswe)]; exact ht⟩
  · intro r hr1 hr2 hr3 hr4 hr5
    rw [update_ne _ _ hr1, transferTok_ok_footprint htr2 r hr4 hr5,
      transferTok_ok_footprint htr1 r hr2 hr3]

/-- Escrow `take` supplying a holding account whose address differs from the
record's stored `escrow_account` fails the `address =` constraint. -/
theorem takeSwap_wrongEscrow {pda : Pda} {taker takerSellA takerBuyA swapA escrowArgA pBuyA : Pubkey}
    {l : L} {info : SwapInfo} {tS tB eT : TokenAccount}
    (hts : l takerSellA = some (.token tS)) (htso : tS.owner = taker)
    (htb : l takerBuyA = some (.token tB))
    (hsw : l swapA = some (.swap info))
    (hescl : l escrowArgA = some (.token eT))
    (hne : escrowArgA ≠ info.escrowAccount) :
    takeSwap pda taker takerSellA takerBuyA swapA escrowArgA pBuyA l =
      .error .constraintViolation := by
  rw [takeSwap, getToken_token hts, bindOkE, if_neg (by simp [htso]),
    getToken_token htb, bindOkE, getSwap_swapE hsw, bindOkE,
    getToken_token hescl, bindOkE, if_pos hne, throwE]

/-- Escrow `take` supplying a poster buy account whose address differs from
the record's stored `poster_buy_account` fails the `address =` constraint. -/
theorem takeSwap_wrongBuyE {pda : Pda} {taker takerSellA takerBuyA swapA escrowArgA pBuyA : Pubkey}
    {l : L} {info : SwapInfo} {tS tB eT pB : TokenAccount}
    (hts : l takerSellA = some (.token tS)) (htso : tS.owner = taker)
    (htb : l takerBuyA = some (.token tB))
    (hsw : l swapA = some (.swap info))
    (hesc : escrowArgA = info.escrowAccount)
    (hescl : l escrowArgA = some (.token eT))
    (hpbl : l pBuyA = some (.token pB))
    (hne : pBuyA ≠ info.posterBuyAccount) :
    takeSwap pda taker takerSellA takerBuyA swapA escrowArgA pBuyA l =
      .error .constraintViolation := by
  rw [takeSwap, getToken_token hts, bindOkE, if_neg (by simp [htso]),
    getToken_token htb, bindOkE, getSwap_swapE hsw, bindOkE,
    getToken_token hescl, bindOkE, if_neg (by simp [hesc]),
    getToken_token hpbl, bindOkE, if_pos hne, throwE]

/-- If escrow `take` passes all account validation but the holding account no
longer holds `posterSellAmount` tokens, the first transfer fails and the whole
`take` aborts with `InsufficientFunds`. -/
theorem takeSwap_insufficientE (pda : Pda) {taker takerSellA takerBuyA swapA escrowArgA pBuyA : Pubkey}
    {l : L} {info : SwapInfo} {tS tB eT : TokenAccount}
    (hts : l takerSellA = some (.token tS)) (htso : tS.owner = taker)
    (htb : l takerBuyA = some (.token tB))
    (hsw : l swapA = some (.swap info))
    (hesc : escrowArgA = info.escrowAccount)
    (hescl : l escrowArgA = some (.token eT))
    (hpb : pBuyA = info.posterBuyAccount) (hpbl : ∃ pB, l pBuyA = some (.token pB))
    (hlow : eT.amount < info.posterSellAmount) :
    takeSwap pda taker takerSellA takerBuyA swapA escrowArgA pBuyA l =
      .error .insufficientFunds := by
  obtain ⟨pB, hpbl⟩ := hpbl
  rw [takeSwap, getToken_token hts, bindOkE, if_neg (by simp [htso]),
    getToken_token htb, bindOkE, getSwap_swapE hsw, bindOkE,
    getToken_token hescl, bindOkE, if_neg (by simp [hesc]),
    getToken_token hpbl, bindOkE, if_neg (by simp [hpb]),
    transferTok_insufficient hescl htb hlow, bindErrE]

end Escrow

/-! ## Net effect of post followed by take -/

namespace Delegate

/-- `post` followed by the matching `take` succeeds and nets: seller's sell
balance down by `sellAmount`, poster's buy balance up by `buyAmount`, taker's
sell balance down by `buyAmount`, taker's buy balance up by `sellAmount`, and
the record is gone. -/
theorem post_take_net (pda : Pda)
    (poster taker sellFromA buyToA takerSellA takerBuyA swapA : Pubkey)
    (sellAmount buyAmount bump : Nat) (l : L) (s0 b0 tS0 tB0 : TokenAccount)
    (hs0 : l sellFromA = some (.token s0)) (hs0o : s0.owner = poster)
    (hb0 : l buyToA = some (.token b0))
    (htS0 : l takerSellA = some (.token tS0)) (htS0o : tS0.owner = taker)
    (htS0d : tS0.delegate = none)
    (htB0 : l takerBuyA = some (.token tB0))
    (hseed : swapA = (pda.find [sellFromA]).1) (hswnone : l swapA = none)
    (hsig : pda.create [sellFromA] bump = some swapA)
    (hamt1 : sellAmount ≤ s0.amount) (hamt2 : buyAmount ≤ tS0.amount)
    (hm1 : s0.mint = tB0.mint) (hm2 : tS0.mint = b0.mint)
    (hov1 : tB0.amount + sellAmount ≤ U64MAX) (hov2 : b0.amount + buyAmount ≤ U64MAX)
    (hd1 : sellFromA ≠ buyToA) (hd2 : sellFromA ≠ takerSellA) (hd3 : sellFromA ≠ takerBuyA)
    (hd4 : buyToA ≠ takerSellA) (hd5 : buyToA ≠ takerBuyA) (hd6 : takerSellA ≠ takerBuyA) :
    isOkR (postSwap pda poster sellFromA buyToA swapA sellAmount buyAmount l) = true ∧
    isOkR (takeSwap pda taker takerSellA takerBuyA swapA sellFromA buyToA bump
      (commit (postSwap pda poster sellFromA buyToA swapA sellAmount buyAmount l) l)) = true ∧
    balance (postTake pda poster taker sellFromA buyToA takerSellA takerBuyA swapA
      sellAmount buyAmount bump l) sellFromA = some (s0.amount - sellAmount) ∧
    balance (postTake pda poster taker sellFromA buyToA takerSellA takerBuyA swapA
      sellAmount buyAmount bump l) buyToA = some (b0.amount + buyAmount) ∧
    balance (postTake pda poster taker sellFromA buyToA takerSellA takerBuyA swapA
      sellAmount buyAmount bump l) takerSellA = some (tS0.amount - buyAmount) ∧
    balance (postTake pda poster taker sellFromA buyToA takerSellA takerBuyA swapA
      sellAmount buyAmount bump l) takerBuyA = some (tB0.amount + sellAmount) ∧
    postTake pda poster taker sellFromA buyToA takerSellA takerBuyA swapA
      sellAmount buyAmount bump l swapA = none := by
  have nsF : sellFromA ≠ swapA := ne_of_some_none hs0 hswnone
  have nbT : buyToA ≠ swapA := ne_of_some_none hb0 hswnone
  have ntS : takerSellA ≠ swapA := ne_of_some_none htS0 hswnone
  have ntB : takerBuyA ≠ swapA := ne_of_some_none htB0 hswnone
  have hpost := postSwap_spec sellAmount buyAmount hs0 hs0o hb0 hseed hswnone
  have hlp_tS : setToken (Function.update l swapA (some (.swap
      { isInitialized := true, poster := poster, posterSellAccount := sellFromA,
        posterBuyAccount := buyToA, posterSellAmount := sellAmount,
        posterBuyAmount := buyAmount })))
      sellFromA { s0 with delegate := some swapA, delegatedAmount := sellAmount }
      takerSellA = some (.token tS0) := by
    rw [setToken_ne _ _ hd2.symm, update_ne _ _ ntS]; exact htS0
  have hlp_tB : setToken (Function.update l swapA (some (.swap
      { isInitialized := true, poster := poster, posterSellAccount := sellFromA,
        posterBuyAccount := buyToA, posterSellAmount := sellAmount,
        posterBuyAmount := buyAmount })))
      sellFromA { s0 with delegate := some swapA, delegatedAmount := sellAmount }
      takerBuyA = some (.token tB0) := by
    rw [setToken_ne _ _ hd3.symm, update_ne _ _ ntB]; exact htB0
  have hlp_bT : setToken (Function.update l swapA (some (.swap
      { isInitialized := true, poster := poster, posterSellAccount := sellFromA,
        posterBuyAccount := buyToA, posterSellAmount := sellAmount,
        posterBuyAmount := buyAmount })))
      sellFromA { s0 with delegate := some swapA, delegatedAmount := sellAmount }
      buyToA = some (.token b0) := by
    rw [setToken_ne _ _ hd1.symm, update_ne _ _ nbT]; exact hb0
  have hlp_sw : setToken (Function.update l swapA (some (.swap
      { isInitialized := true, poster := poster, posterSellAccount := sellFromA,
        posterBuyAccount := buyToA, posterSellAmount := sellAmount,
        posterBuyAmount := buyAmount })))
      sellFromA { s0 with delegate := some swapA, delegatedAmount := sellAmount }
      swapA = some (.swap
      { isInitialized := true, poster := poster, posterSellAccount := sellFromA,
        posterBuyAccount := buyToA, posterSellAmount := sellAmount,
        posterBuyAmount := buyAmount }) := by
    rw [setToken_ne _ _ nsF.symm, Function.update_same]
  have htake := takeSwap_spec
    hlp_tS htS0o htS0d hlp_tB hlp_sw hseed rfl (setToken_self _ _ _) hs0o rfl
    rfl hlp_bT hsig hamt1 (le_refl _) hamt2 hm1 hm2 hov1 hov2
    hd3 hd4.symm hd2.symm hd6 hd1.symm hd5
  refine ⟨isOkR_of_ok hpost, ?_, ?_, ?_, ?_, ?_, ?_⟩
  · rw [commit_ok hpost]; exact isOkR_of_ok htake
  · simp only [postTake]
    rw [commit_ok hpost, commit_ok htake]
    simp [balance, setToken, Function.update, nsF, hd1, hd2, hd3]
  · simp only [postTake]
    rw [commit_ok hpost, commit_ok htake]
    simp [balance, setToken, Function.update, nbT, hd1.symm, hd4, hd5]
  · simp only [postTake]
    rw [commit_ok hpost, commit_ok htake]
    simp [balance, setToken, Function.update, ntS, hd2.symm, hd4.symm, hd6]
  · simp only [postTake]
    rw [commit_ok hpost, commit_ok htake]
    simp [balance, setToken, Function.update, ntB, hd3.symm, hd5.symm, hd6.symm]
  · simp only [postTake]
    rw [commit_ok hpost, commit_ok htake, Function.update_same]

end Delegate

namespace Escrow

/-- Escrow `post` followed by the matching `take` succeeds and nets the same
balance changes as the delegation variant, with the record gone. -/
theorem post_take_netE (pda : Pda)
    (poster taker sellFromA buyToA takerSellA takerBuyA swapA escrowA mintA : Pubkey)
    (swapSeed sellAmount buyAmount : Nat) (l : L) (s0 b0 tS0 tB0 : TokenAccount)
    (hs0 : l sellFromA = some (.token s0)) (hs0o : s0.owner = poster)
    (hs0d : s0.delegate = none)
    (hb0 : l buyToA = some (.token b0))
    (htS0 : l takerSellA = some (.token tS0)) (htS0o : tS0.owner = taker)
    (htS0d : tS0.delegate = none)
    (htB0 : l takerBuyA = some (.token tB0))
    (hseed : swapA = (pda.find [swapSeed]).1) (hswnone : l swapA = none)
    (hesc : escrowA = (pda.find [swapA]).1) (hescnone : l escrowA = none)
    (hne : escrowA ≠ swapA)
    (hmint : l mintA = some .mintAcc) (hsm : s0.mint = mintA)
    (hsig : pda.create [swapA] ((pda.find [swapA]).2) = some escrowA)
    (hamt1 : sellAmount ≤ s0.amount) (hamt2 : buyAmount ≤ tS0.amount)
    (hm1 : s0.mint = tB0.mint) (hm2 : tS0.mint = b0.mint)
    (hov1 : tB0.amount + sellAmount ≤ U64MAX) (hov2 : b0.amount + buyAmount ≤ U64MAX)
    (hd1 : sellFromA ≠ buyToA) (hd2 : sellFromA ≠ takerSellA) (hd3 : sellFromA ≠ takerBuyA)
    (hd4 : buyToA ≠ takerSellA) (hd5 : buyToA ≠ takerBuyA) (hd6 : takerSellA ≠ takerBuyA) :
    isOkR (postSwap pda poster sellFromA buyToA swapA escrowA mintA swapSeed
      sellAmount buyAmount l) = true ∧
    isOkR (takeSwap pda taker takerSellA takerBuyA swapA escrowA buyToA
      (commit (postSwap pda poster sellFromA buyToA swapA escrowA mintA swapSeed
        sellAmount buyAmount l) l)) = true ∧
    balance (postTake pda poster taker sellFromA buyToA takerSellA takerBuyA swapA
      escrowA mintA swapSeed sellAmount buyAmount l) sellFromA
      = some (s0.amount - sellAmount) ∧
    balance (postTake pda poster taker sellFromA buyToA takerSellA takerBuyA swapA
      escrowA mintA swapSeed sellAmount buyAmount l) buyToA
      = some (b0.amount + buyAmount) ∧
    balance (postTake pda poster taker sellFromA buyToA takerSellA takerBuyA swapA
      escrowA mintA swapSeed sellAmount buyAmount l) takerSellA
      = some (tS0.amount - buyAmount) ∧
    balance (postTake pda poster taker sellFromA buyToA takerSellA takerBuyA swapA
      escrowA mintA swapSeed sellAmount buyAmount l) takerBuyA
      = some (tB0.amount + sellAmount) ∧
    postTake pda poster taker sellFromA buyToA takerSellA takerBuyA swapA
      escrowA mintA swapSeed sellAmount buyAmount l swapA = none := by
  have nsF : sellFromA ≠ swapA := ne_of_some_none hs0 hswnone
  have nbT : buyToA ≠ swapA := ne_of_some_none hb0 hswnone
  have ntS : takerSellA ≠ swapA := ne_of_some_none htS0 hswnone
  have ntB : takerBuyA ≠ swapA := ne_of_some_none htB0 hswnone
  have esF : sellFromA ≠ escrowA := ne_of_some_none hs0 hescnone
  have ebT : buyToA ≠ escrowA := ne_of_some_none hb0 hescnone
  have etS : takerSellA ≠ escrowA := ne_of_some_none htS0 hescnone
  have etB : takerBuyA ≠ escrowA := ne_of_some_none htB0 hescnone
  have hpost := postSwap_specE sellAmount buyAmount hs0 hs0o hs0d hb0 hseed
    hswnone hesc hescnone hne hmint hsm hamt1 (by omega)
  have hlp_tS : setToken (setToken
      (Function.update (setToken l escrowA ⟨escrowA, mintA, 0, none, 0⟩)
        swapA (some (.swap
          { isInitialized := true, poster := poster, escrowAccount := escrowA,
            posterBuyAccount := buyToA, posterSellAmount := sellAmount,
            posterBuyAmount := buyAmount })))
      sellFromA { s0 with amount := s0.amount - sellAmount })
      escrowA ⟨escrowA, mintA, 0 + sellAmount, none, 0⟩
      takerSellA = some (.token tS0) := by
    rw [setToken_ne _ _ etS, setToken_ne _ _ hd2.symm, update_ne _ _ ntS,
      setToken_ne _ _ etS]; exact htS0
  have hlp_tB : setToken (setToken
      (Function.update (setToken l escrowA ⟨escrowA, mintA, 0, none, 0⟩)
        swapA (some (.swap
          { isInitialized := true, poster := poster, escrowAccount := escrowA,
            posterBuyAccount := buyToA, posterSellAmount := sellAmount,
            posterBuyAmount := buyAmount })))
      sellFromA { s0 with amount := s0.amount - sellAmount })
      escrowA ⟨escrowA, mintA, 0 + sellAmount, none, 0⟩
      takerBuyA = some (.token tB0) := by
    rw [setToken_ne _ _ etB, setToken_ne _ _ hd3.symm, update_ne _ _ ntB,
      setToken_ne _ _ etB]; exact htB0
  have hlp_bT : setToken (setToken
      (Function.update (setToken l escrowA ⟨escrowA, mintA, 0, none, 0⟩)
        swapA (some (.swap
          { isInitialized := true, poster := poster, escrowAccount := escrowA,
            posterBuyAccount := buyToA, posterSellAmount := sellAmount,
            posterBuyAmount := buyAmount })))
      sellFromA { s0 with amount := s0.amount - sellAmount })
      escrowA ⟨escrowA, mintA, 0 + sellAmount, none, 0⟩
      buyToA = some (.token b0) := by
    rw [setToken_ne _ _ ebT, setToken_ne _ _ hd1.symm, update_ne _ _ nbT,
      setToken_ne _ _ ebT]; exact hb0
  have hlp_sw : setToken (setToken
      (Function.update (setToken l escrowA ⟨escrowA, mintA, 0, none, 0⟩)
        swapA (some (.swap
          { isInitialized := true, poster := poster, escrowAccount := escrowA,
            posterBuyAccount := buyToA, posterSellAmount := sellAmount,
            posterBuyAmount := buyAmount })))
      sellFromA { s0 with amount := s0.amount - sellAmount })
      escrowA ⟨escrowA, mintA, 0 + sellAmount, none, 0⟩
      swapA = some (.swap
      { isInitialized := true, poster := poster, escrowAccount := escrowA,
        posterBuyAccount := buyToA, posterSellAmount := sellAmount,
        posterBuyAmount := buyAmount }) := by
    rw [setToken_ne _ _ hne.symm, setToken_ne _ _ nsF.symm, Function.update_same]
  have htake := takeSwap_specE hlp_tS htS0o htS0d hlp_tB hlp_sw rfl
    (setToken_self _ _ _) rfl rfl rfl hlp_bT hsig (by simp) hamt2
    (by rw [← hsm] at *; exact hm1) hm2 hov1 hov2
    etB.symm hd4.symm etS hd6 ebT hd5
  refine ⟨isOkR_of_ok hpost, ?_, ?_, ?_, ?_, ?_, ?_⟩
  · rw [commit_ok hpost]; exact isOkR_of_ok htake
  · simp only [postTake]
    rw [commit_ok hpost, commit_ok htake]
    simp [balance, setToken, Function.update, nsF, hd1, hd2, hd3, esF]
  · simp only [postTake]
    rw [commit_ok hpost, commit_ok htake]
    simp [balance, setToken, Function.update, nbT, hd4, hd5, ebT, hd1.symm]
  · simp only [postTake]
    rw [commit_ok hpost, commit_ok htake]
    simp [balance, setToken, Function.update, ntS, hd4.symm, hd6, etS, hd2.symm]
  · simp only [postTake]
    rw [commit_ok hpost, commit_ok htake]
    simp [balance, setToken, Function.update, ntB, hd5.symm, hd6.symm, etB.symm,
      hd3.symm]
  · simp only [postTake]
    rw [commit_ok hpost, commit_ok htake, Function.update_same]

end Escrow

/-! ## Helpers: failed takes, record preservation, exact transfer amounts -/

theorem exists_ok_of_isOkR {α : Type} {r : Except SwapError α} (h : isOkR r = true) :
    ∃ a, r = .ok a := by
  cases r with
  | ok a => exact ⟨a, rfl⟩
  | error e => simp [isOkR] at h

namespace Delegate

/-- No `take` can succeed against an absent record. -/
theorem takeSwap_none_fails (pda : Pda)
    (taker takerSellA takerBuyA swapA pSellA pBuyA : Pubkey) (bump : Nat) (l : L)
    (h : l swapA = none) :
    isOkR (takeSwap pda taker takerSellA takerBuyA swapA pSellA pBuyA bump l) = false := by
  cases hr : takeSwap pda taker takerSellA takerBuyA swapA pSellA pBuyA bump l with
  | ok lf =>
    obtain ⟨⟨info, hsw⟩, _⟩ := takeSwap_ok_inv hr
    rw [h] at hsw
    cases hsw
  | error e => rfl

/-- `post` never alters an existing initialized record (its own target
included: against it, `post` fails). -/
theorem post_keeps_record (pda : Pda) (poster sellFromA buyToA swapA : Pubkey)
    (sellAmount buyAmount : Nat) (l : L) (r : Pubkey) (srec : SwapInfo)
    (hr : l r = some (.swap srec)) (hinit : srec.isInitialized = true) :
    commit (postSwap pda poster sellFromA buyToA swapA sellAmount buyAmount l) l r
      = l r := by
  cases hres : postSwap pda poster sellFromA buyToA swapA sellAmount buyAmount l with
  | error e => rfl
  | ok lf =>
    show lf r = l r
    obtain ⟨_, hnoinit, ⟨s0, hs0, _, _⟩, _, hfoot⟩ := postSwap_ok_inv hres
    have h1 : r ≠ swapA := by
      intro he; subst he; rw [hnoinit srec hr] at hinit; exact absurd hinit (by simp)
    have h2 : r ≠ sellFromA := by
      intro he; subst he; rw [hr] at hs0; simp at hs0
    exact hfoot r h1 h2

/-- `take` either leaves an initialized record untouched or (for its own
target) deletes it whole; it never rewrites the stored terms. -/
theorem take_keeps_record (pda : Pda)
    (taker takerSellA takerBuyA swapA pSellA pBuyA : Pubkey) (bump : Nat) (l : L)
    (r : Pubkey) (srec : SwapInfo)
    (hr : l r = some (.swap srec)) (_hinit : srec.isInitialized = true) :
    commit (takeSwap pda taker takerSellA takerBuyA swapA pSellA pBuyA bump l) l r
        = l r ∨
    commit (takeSwap pda taker takerSellA takerBuyA swapA pSellA pBuyA bump l) l r
        = none := by
  cases hres : takeSwap pda taker takerSellA takerBuyA swapA pSellA pBuyA bump l with
  | error e => exact Or.inl rfl
  | ok lf =>
    show lf r = l r ∨ lf r = none
    obtain ⟨⟨info, hsw⟩, hnone, ⟨tS, htS⟩, ⟨tB, htB⟩, ⟨pS, hpS⟩, ⟨pB, hpB⟩, hfoot⟩ :=
      takeSwap_ok_inv hres
    by_cases he : r = swapA
    · subst he; exact Or.inr hnone
    · refine Or.inl (hfoot r he ?_ ?_ ?_ ?_)
      · intro he2; subst he2; rw [hr] at hpS; simp at hpS
      · intro he2; subst he2; rw [hr] at htB; simp at htB
      · intro he2; subst he2; rw [hr] at htS; simp at htS
      · intro he2; subst he2; rw [hr] at hpB; simp at hpB

/-- A successful `take` moves exactly the stored terms: `posterSellAmount`
out of the poster's sell account into the taker's buy account, and
`posterBuyAmount` out of the taker's sell account into the poster's buy
account. -/
theorem take_exact {pda : Pda} {taker takerSellA takerBuyA swapA pSellA pBuyA : Pubkey}
    {bump : Nat} {l : L} {info : SwapInfo} {tS tB pS pB : TokenAccount}
    (hts : l takerSellA = some (.token tS)) (htso : tS.owner = taker)
    (htsd : tS.delegate = none)
    (htb : l takerBuyA = some (.token tB))
    (hsw : l swapA = some (.swap info))
    (hseed : swapA = (pda.find [info.posterSellAccount]).1)
    (hps : pSellA = info.posterSellAccount)
    (hpsl : l pSellA = some (.token pS)) (hpso : pS.owner = info.poster)
    (hpsd : pS.delegate = some swapA)
    (hpb : pBuyA = info.posterBuyAccount) (hpbl : l pBuyA = some (.token pB))
    (hsig : pda.create [info.posterSellAccount] bump = some swapA)
    (hamt1 : info.posterSellAmount ≤ pS.amount)
    (hda : info.posterSellAmount ≤ pS.delegatedAmount)
    (hamt2 : info.posterBuyAmount ≤ tS.amount)
    (hm1 : pS.mint = tB.mint) (hm2 : tS.mint = pB.mint)
    (hov1 : tB.amount + info.posterSellAmount ≤ U64MAX)
    (hov2 : pB.amount + info.posterBuyAmount ≤ U64MAX)
    (hd1 : pSellA ≠ takerBuyA) (hd2 : takerSellA ≠ pBuyA)
    (hd3 : takerSellA ≠ pSellA) (hd4 : takerSellA ≠ takerBuyA)
    (hd5 : pBuyA ≠ pSellA) (hd6 : pBuyA ≠ takerBuyA) :
    isOkR (takeSwap pda taker takerSellA takerBuyA swapA pSellA pBuyA bump l) = true ∧
    balance (commit (takeSwap pda taker takerSellA takerBuyA swapA pSellA pBuyA bump l) l)
      pSellA = some (pS.amount - info.posterSellAmount) ∧
    balance (commit (takeSwap pda taker takerSellA takerBuyA swapA pSellA pBuyA bump l) l)
      takerBuyA = some (tB.amount + info.posterSellAmount) ∧
    balance (commit (takeSwap pda taker takerSellA takerBuyA swapA pSellA pBuyA bump l) l)
      takerSellA = some (tS.amount - info.posterBuyAmount) ∧
    balance (commit (takeSwap pda taker takerSellA takerBuyA swapA pSellA pBuyA bump l) l)
      pBuyA = some (pB.amount + info.posterBuyAmount) := by
  have nps : pSellA ≠ swapA := ne_of_token_swap hpsl hsw
  have ntb : takerBuyA ≠ swapA := ne_of_token_swap htb hsw
  have nts : takerSellA ≠ swapA := ne_of_token_swap hts hsw
  have npb : pBuyA ≠ swapA := ne_of_token_swap hpbl hsw
  have htake := takeSwap_spec hts htso htsd htb hsw hseed hps hpsl hpso hpsd hpb
    hpbl hsig hamt1 hda hamt2 hm1 hm2 hov1 hov2 hd1 hd2 hd3 hd4 hd5 hd6
  refine ⟨isOkR_of_ok htake, ?_, ?_, ?_, ?_⟩ <;> rw [commit_ok htake]
  · simp [balance, setToken, Function.update, nps, hd5.symm, hd3.symm, hd1]
  · simp [balance, setToken, Function.update, ntb, hd6.symm, hd4.symm]
  · simp [balance, setToken, Function.update, nts, hd2]
  · simp [balance, setToken, Function.update, npb]

end Delegate

namespace Escrow

/-- No escrow `take` can succeed against an absent record. -/
theorem takeSwap_none_failsE (pda : Pda)
    (taker takerSellA takerBuyA swapA escrowArgA pBuyA : Pubkey) (l : L)
    (h : l swapA = none) :
    isOkR (takeSwap pda taker takerSellA takerBuyA swapA escrowArgA pBuyA l) = false := by
  cases hr : takeSwap pda taker takerSellA takerBuyA swapA escrowArgA pBuyA l with
  | ok lf =>
    obtain ⟨⟨info, hsw⟩, _⟩ := takeSwap_ok_invE hr
    rw [h] at hsw
    cases hsw
  | error e => rfl

/-- Escrow `post` never alters an existing initialized record. -/
theorem post_keeps_recordE (pda : Pda) (poster sellFromA buyToA swapA escrowA mintA : Pubkey)
    (swapSeed sellAmount buyAmount : Nat) (l : L) (r : Pubkey) (srec : SwapInfo)
    (hr : l r = some (.swap srec)) (hinit : srec.isInitialized = true) :
    commit (postSwap pda poster sellFromA buyToA swapA escrowA mintA swapSeed
      sellAmount buyAmount l) l r = l r := by
  cases hres : postSwap pda poster sellFromA buyToA swapA escrowA mintA swapSeed
      sellAmount buyAmount l with
  | error e => rfl
  | ok lf =>
    show lf r = l r
    obtain ⟨_, _, hescnone, hnoinit, ⟨s0, hs0, _, _, _, _⟩, _, _, hfoot⟩ :=
      postSwap_ok_invE hres
    have h1 : r ≠ swapA := by
      intro he; subst he; rw [hnoinit srec hr] at hinit; exact absurd hinit (by simp)
    have h2 : r ≠ escrowA := by
      intro he; subst he; rw [hr] at hescnone; cases hescnone
    have h3 : r ≠ sellFromA := by
      intro he; subst he; rw [hr] at hs0; simp at hs0
    exact hfoot r h1 h2 h3

/-- Escrow `take` either leaves an initialized record untouched or deletes
its own target whole; it never rewrites the stored terms. -/
theorem take_keeps_recordE (pda : Pda)
    (taker takerSellA takerBuyA swapA escrowArgA pBuyA : Pubkey) (l : L)
    (r : Pubkey) (srec : SwapInfo)
    (hr : l r = some (.swap srec)) :
    commit (takeSwap pda taker takerSellA takerBuyA swapA escrowArgA pBuyA l) l r
        = l r ∨
    commit (takeSwap pda taker takerSellA takerBuyA swapA escrowArgA pBuyA l) l r
        = none := by
  cases hres : takeSwap pda taker takerSellA takerBuyA swapA escrowArgA pBuyA l with
  | error e => exact Or.inl rfl
  | ok lf =>
    show lf r = l r ∨ lf r = none
    obtain ⟨⟨info, hsw⟩, hnone, ⟨tS, htS⟩, ⟨tB, htB⟩, ⟨eT, heT⟩, ⟨pB, hpB⟩, _, hfoot⟩ :=
      takeSwap_ok_invE hres
    by_cases he : r = swapA
    · subst he; exact Or.inr hnone
    · refine Or.inl (hfoot r he ?_ ?_ ?_ ?_)
      · intro he2; subst he2; rw [hr] at heT; simp at heT
      · intro he2; subst he2; rw [hr] at htB; simp at htB
      · intro he2; subst he2; rw [hr] at htS; simp at htS
      · intro he2; subst he2; rw [hr] at hpB; simp at hpB

/-- A successful escrow `take` moves exactly the stored terms. -/
theorem take_exactE {pda : Pda} {taker takerSellA takerBuyA swapA escrowArgA pBuyA : Pubkey}
    {l : L} {info : SwapInfo} {tS tB eT pB : TokenAccount}
    (hts : l takerSellA = some (.token tS)) (htso : tS.owner = taker)
    (htsd : tS.delegate = none)
    (htb : l takerBuyA = some (.token tB))
    (hsw : l swapA = some (.swap info))
    (hesc : escrowArgA = info.escrowAccount)
    (hescl : l escrowArgA = some (.token eT)) (heto : eT.owner = escrowArgA)
    (hetd : eT.delegate = none)
    (hpb : pBuyA = info.posterBuyAccount) (hpbl : l pBuyA = some (.token pB))
    (hsig : pda.create [swapA] ((pda.find [swapA]).2) = some escrowArgA)
    (hamt1 : info.posterSellAmount ≤ eT.amount)
    (hamt2 : info.posterBuyAmount ≤ tS.amount)
    (hm1 : eT.mint = tB.mint) (hm2 : tS.mint = pB.mint)
    (hov1 : tB.amount + info.posterSellAmount ≤ U64MAX)
    (hov2 : pB.amount + info.posterBuyAmount ≤ U64MAX)
    (hd1 : escrowArgA ≠ takerBuyA) (hd2 : takerSellA ≠ pBuyA)
    (hd3 : takerSellA ≠ escrowArgA) (hd4 : takerSellA ≠ takerBuyA)
    (hd5 : pBuyA ≠ escrowArgA) (hd6 : pBuyA ≠ takerBuyA) :
    isOkR (takeSwap pda taker takerSellA takerBuyA swapA escrowArgA pBuyA l) = true ∧
    commit (takeSwap pda taker takerSellA takerBuyA swapA escrowArgA pBuyA l) l
      swapA = none ∧
    balance (commit (takeSwap pda taker takerSellA takerBuyA swapA escrowArgA pBuyA l) l)
      escrowArgA = some (eT.amount - info.posterSellAmount) ∧
    balance (commit (takeSwap pda taker takerSellA takerBuyA swapA escrowArgA pBuyA l) l)
      takerBuyA = some (tB.amount + info.posterSellAmount) ∧
    balance (commit (takeSwap pda taker takerSellA takerBuyA swapA escrowArgA pBuyA l) l)
      takerSellA = some (tS.amount - info.posterBuyAmount) ∧
    balance (commit (takeSwap pda taker takerSellA takerBuyA swapA escrowArgA pBuyA l) l)
      pBuyA = some (pB.amount + info.posterBuyAmount) := by
  have nes : escrowArgA ≠ swapA := ne_of_token_swap hescl hsw
  have ntb : takerBuyA ≠ swapA := ne_of_token_swap htb hsw
  have nts : takerSellA ≠ swapA := ne_of_token_swap hts hsw
  have npb : pBuyA ≠ swapA := ne_of_token_swap hpbl hsw
  have htake := takeSwap_specE hts htso htsd htb hsw hesc hescl heto hetd hpb
    hpbl hsig hamt1 hamt2 hm1 hm2 hov1 hov2 hd1 hd2 hd3 hd4 hd5 hd6
  refine ⟨isOkR_of_ok htake, ?_, ?_, ?_, ?_, ?_⟩ <;> rw [commit_ok htake]
  · exact Function.update_same _ _ _
  · simp [balance, setToken, Function.update, nes, hd5.symm, hd3.symm, hd1]
  · simp [balance, setToken, Function.update, ntb, hd6.symm, hd4.symm]
  · simp [balance, setToken, Function.update, nts, hd2]
  · simp [balance, setToken, Function.update, npb]

end Escrow

/-! ## The claims -/

/-- C1: for every valid swap terms and matching counter-accounts, in both
variants, executing `post` and then `take` succeeds and results in: the
poster's sell-account balance decreased by `sell_amount`, the poster's
buy-account balance increased by `buy_amount`, the taker's sell-account
balance decreased by `buy_amount`, the taker's buy-account balance increased
by `sell_amount`, and the SwapRecord no longer existing. -/
theorem claim_C1 :
    (∀ (pda : Pda) (poster taker sellFromA buyToA takerSellA takerBuyA swapA : Pubkey)
       (sellAmount buyAmount bump : Nat) (l : Delegate.L) (s0 b0 tS0 tB0 : TokenAccount),
       l sellFromA = some (.token s0) → s0.owner = poster →
       l buyToA = some (.token b0) →
       l takerSellA = some (.token tS0) → tS0.owner = taker → tS0.delegate = none →
       l takerBuyA = some (.token tB0) →
       swapA = (pda.find [sellFromA]).1 → l swapA = none →
       pda.create [sellFromA] bump = some swapA →
       sellAmount ≤ s0.amount → buyAmount ≤ tS0.amount →
       s0.mint = tB0.mint → tS0.mint = b0.mint →
       tB0.amount + sellAmount ≤ U64MAX → b0.amount + buyAmount ≤ U64MAX →
       sellFromA ≠ buyToA → sellFromA ≠ takerSellA → sellFromA ≠ takerBuyA →
       buyToA ≠ takerSellA → buyToA ≠ takerBuyA → takerSellA ≠ takerBuyA →
       isOkR (Delegate.postSwap pda poster sellFromA buyToA swapA sellAmount buyAmount l)
         = true ∧
       isOkR (Delegate.takeSwap pda taker takerSellA takerBuyA swapA sellFromA buyToA bump
         (commit (Delegate.postSwap pda poster sellFromA buyToA swapA sellAmount buyAmount l)
           l)) = true ∧
       balance (Delegate.postTake pda poster taker sellFromA buyToA takerSellA takerBuyA
         swapA sellAmount buyAmount bump l) sellFromA = some (s0.amount - sellAmount) ∧
       balance (Delegate.postTake pda poster taker sellFromA buyToA takerSellA takerBuyA
         swapA sellAmount buyAmount bump l) buyToA = some (b0.amount + buyAmount) ∧
       balance (Delegate.postTake pda poster taker sellFromA buyToA takerSellA takerBuyA
         swapA sellAmount buyAmount bump l) takerSellA = some (tS0.amount - buyAmount) ∧
       balance (Delegate.postTake pda poster taker sellFromA buyToA takerSellA takerBuyA
         swapA sellAmount buyAmount bump l) takerBuyA = some (tB0.amount + sellAmount) ∧
       Delegate.postTake pda poster taker sellFromA buyToA takerSellA takerBuyA
         swapA sellAmount buyAmount bump l swapA = none) ∧
    (∀ (pda : Pda)
       (poster taker sellFromA buyToA takerSellA takerBuyA swapA escrowA mintA : Pubkey)
       (swapSeed sellAmount buyAmount : Nat) (l : Escrow.L) (s0 b0 tS0 tB0 : TokenAccount),
       l sellFromA = some (.token s0) → s0.owner = poster → s0.delegate = none →
       l buyToA = some (.token b0) →
       l takerSellA = some (.token tS0) → tS0.owner = taker → tS0.delegate = none →
       l takerBuyA = some (.token tB0) →
       swapA = (pda.find [swapSeed]).1 → l swapA = none →
       escrowA = (pda.find [swapA]).1 → l escrowA = none → escrowA ≠ swapA →
       l mintA = some .mintAcc → s0.mint = mintA →
       pda.create [swapA] ((pda.find [swapA]).2) = some escrowA →
       sellAmount ≤ s0.amount → buyAmount ≤ tS0.amount →
       s0.mint = tB0.mint → tS0.mint = b0.mint →
       tB0.amount + sellAmount ≤ U64MAX → b0.amount + buyAmount ≤ U64MAX →
       sellFromA ≠ buyToA → sellFromA ≠ takerSellA → sellFromA ≠ takerBuyA →
       buyToA ≠ takerSellA → buyToA ≠ takerBuyA → takerSellA ≠ takerBuyA →
       isOkR (Escrow.postSwap pda poster sellFromA buyToA swapA escrowA mintA swapSeed
         sellAmount buyAmount l) = true ∧
       isOkR (Escrow.takeSwap pda taker takerSellA takerBuyA swapA escrowA buyToA
         (commit (Escrow.postSwap pda poster sellFromA buyToA swapA escrowA mintA swapSeed
           sellAmount buyAmount l) l)) = true ∧
       balance (Escrow.postTake pda poster taker sellFromA buyToA takerSellA takerBuyA
         swapA escrowA mintA swapSeed sellAmount buyAmount l) sellFromA
         = some (s0.amount - sellAmount) ∧
       balance (Escrow.postTake pda poster taker sellFromA buyToA takerSellA takerBuyA
         swapA escrowA mintA swapSeed sellAmount buyAmount l) buyToA
         = some (b0.amount + buyAmount) ∧
       balance (Escrow.postTake pda poster taker sellFromA buyToA takerSellA takerBuyA
         swapA escrowA mintA swapSeed sellAmount buyAmount l) takerSellA
         = some (tS0.amount - buyAmount) ∧
       balance (Escrow.postTake pda poster taker sellFromA buyToA takerSellA takerBuyA
         swapA escrowA mintA swapSeed sellAmount buyAmount l) takerBuyA
         = some (tB0.amount + sellAmount) ∧
       Escrow.postTake pda poster taker sellFromA buyToA takerSellA takerBuyA
         swapA escrowA mintA swapSeed sellAmount buyAmount l swapA = none) :=
  ⟨Delegate.post_take_net, Escrow.post_take_netE⟩

/-- Witness for C1 at the concrete 10-alpha-for-7-beta scenario. -/
theorem claim_C1_witness :
    isOkR (Delegate.postSwap pda0 1 11 12 31 10 7 l0D) = true ∧
    isOkR (Delegate.takeSwap pda0 2 13 14 31 11 12 7
      (commit (Delegate.postSwap pda0 1 11 12 31 10 7 l0D) l0D)) = true ∧
    balance (Delegate.postTake pda0 1 2 11 12 13 14 31 10 7 7 l0D) 11 = some 0 ∧
    balance (Delegate.postTake pda0 1 2 11 12 13 14 31 10 7 7 l0D) 12 = some 7 ∧
    balance (Delegate.postTake pda0 1 2 11 12 13 14 31 10 7 7 l0D) 13 = some 0 ∧
    balance (Delegate.postTake pda0 1 2 11 12 13 14 31 10 7 7 l0D) 14 = some 10 ∧
    Delegate.postTake pda0 1 2 11 12 13 14 31 10 7 7 l0D 31 = none :=
  claim_C1.1 pda0 1 2 11 12 13 14 31 10 7 7 l0D
    ⟨1, 21, 10, none, 0⟩ ⟨1, 22, 0, none, 0⟩ ⟨2, 22, 7, none, 0⟩ ⟨2, 21, 0, none, 0⟩
    (by decide) (by decide) (by decide) (by decide) (by decide) (by decide)
    (by decide) (by decide) (by decide) (by decide) (by decide) (by decide)
    (by decide) (by decide) (by decide) (by decide) (by decide) (by decide)
    (by decide) (by decide) (by decide) (by decide)

/-- C2: in both variants, `take` succeeds at most once: a successful `take`
removes the record; against an absent (never-posted or already-taken) record,
`take` fails — with `NotFound` once the taker-side accounts pass their own
checks — and commits no state change. -/
theorem claim_C2 :
    (∀ (pda : Pda) (taker takerSellA takerBuyA swapA pSellA pBuyA : Pubkey)
       (bump : Nat) (l lf : Delegate.L),
       Delegate.takeSwap pda taker takerSellA takerBuyA swapA pSellA pBuyA bump l
         = .ok lf → lf swapA = none) ∧
    (∀ (pda : Pda) (taker takerSellA takerBuyA swapA pSellA pBuyA : Pubkey)
       (bump : Nat) (l : Delegate.L) (tS tB : TokenAccount),
       l takerSellA = some (.token tS) → tS.owner = taker →
       l takerBuyA = some (.token tB) → l swapA = none →
       Delegate.takeSwap pda taker takerSellA takerBuyA swapA pSellA pBuyA bump l
         = .error .notFound) ∧
    (∀ (pda : Pda) (taker takerSellA takerBuyA swapA pSellA pBuyA : Pubkey)
       (bump : Nat) (l : Delegate.L),
       l swapA = none →
       isOkR (Delegate.takeSwap pda taker takerSellA takerBuyA swapA pSellA pBuyA bump l)
         = false ∧
       commit (Delegate.takeSwap pda taker takerSellA takerBuyA swapA pSellA pBuyA bump l)
         l = l) ∧
    (∀ (pda : Pda) (taker takerSellA takerBuyA swapA escrowArgA pBuyA : Pubkey)
       (l lf : Escrow.L),
       Escrow.takeSwap pda taker takerSellA takerBuyA swapA escrowArgA pBuyA l
         = .ok lf → lf swapA = none) ∧
    (∀ (pda : Pda) (taker takerSellA takerBuyA swapA escrowArgA pBuyA : Pubkey)
       (l : Escrow.L) (tS tB : TokenAccount),
       l takerSellA = some (.token tS) → tS.owner = taker →
       l takerBuyA = some (.token tB) → l swapA = none →
       Escrow.takeSwap pda taker takerSellA takerBuyA swapA escrowArgA pBuyA l
         = .error .notFound) ∧
    (∀ (pda : Pda) (taker takerSellA takerBuyA swapA escrowArgA pBuyA : Pubkey)
       (l : Escrow.L),
       l swapA = none →
       isOkR (Escrow.takeSwap pda taker takerSellA takerBuyA swapA escrowArgA pBuyA l)
         = false ∧
       commit (Escrow.takeSwap pda taker takerSellA takerBuyA swapA escrowArgA pBuyA l)
         l = l) := by
  refine ⟨?_, ?_, ?_, ?_, ?_, ?_⟩
  · intro pda taker tsA tbA swA psA pbA bump l lf h
    exact (Delegate.takeSwap_ok_inv h).2.1
  · intro pda taker tsA tbA swA psA pbA bump l tS tB h1 h2 h3 h4
    exact Delegate.takeSwap_notFound h1 h2 h3 h4
  · intro pda taker tsA tbA swA psA pbA bump l h
    have hf := Delegate.takeSwap_none_fails pda taker tsA tbA swA psA pbA bump l h
    exact ⟨hf, commit_not_ok hf⟩
  · intro pda taker tsA tbA swA escA pbA l lf h
    exact (Escrow.takeSwap_ok_invE h).2.1
  · intro pda taker tsA tbA swA escA pbA l tS tB h1 h2 h3 h4
    exact Escrow.takeSwap_notFoundE h1 h2 h3 h4
  · intro pda taker tsA tbA swA escA pbA l h
    have hf := Escrow.takeSwap_none_failsE pda taker tsA tbA swA escA pbA l h
    exact ⟨hf, commit_not_ok hf⟩

/-- Witness for C2: a second `take` against the already-taken delegation
record fails with `NotFound`. -/
theorem claim_C2_witness :
    Delegate.takeSwap pda0 2 13 14 31 11 12 7 l2D = .error .notFound :=
  claim_C2.2.1 pda0 2 13 14 31 11 12 7 l2D ⟨2, 22, 0, none, 0⟩ ⟨2, 21, 10, none, 0⟩
    (by decide) (by decide) (by decide) (by decide)

/-- Counterexample to C3 as stated: in the escrow variant, after a successful
first `post`, re-posting with the same seed (even with different amounts 9/6)
fails with the account-in-use error from re-`init`ing the holding account, not
with `AlreadyInitialized`. -/
theorem claim_C3_counterexample :
    isOkR (Escrow.postSwap pda0 1 11 12 32 33 21 40 10 7 l0E) = true ∧
    errOf (Escrow.postSwap pda0 1 11 12 32 33 21 40 9 6 l1E)
      = some .accountInUse ∧
    SwapError.accountInUse ≠ SwapError.alreadyInitialized := by
  refine ⟨by decide, by decide, by decide⟩

/-- C3 (amended): a second `post` with the same seed while the first post's
record still exists fails — in the delegation variant with
`AlreadyInitialized`; in the escrow variant with an account-in-use error from
re-creating the holding account — and in both variants the ledger, in
particular the record's stored terms, is unchanged. -/
theorem claim_C3 :
    (∀ (pda : Pda) (poster sellFromA buyToA swapA : Pubkey)
       (sellAmount buyAmount : Nat) (l : Delegate.L) (s0 b0 : TokenAccount)
       (info : Delegate.SwapInfo),
       l sellFromA = some (.token s0) → s0.owner = poster →
       l buyToA = some (.token b0) →
       swapA = (pda.find [sellFromA]).1 →
       l swapA = some (.swap info) → info.isInitialized = true →
       Delegate.postSwap pda poster sellFromA buyToA swapA sellAmount buyAmount l
         = .error .alreadyInitialized ∧
       commit (Delegate.postSwap pda poster sellFromA buyToA swapA sellAmount buyAmount l)
         l = l) ∧
    (∀ (pda : Pda) (poster sellFromA buyToA swapA escrowA mintA : Pubkey)
       (swapSeed sellAmount buyAmount : Nat) (l : Escrow.L) (s0 b0 : TokenAccount)
       (info : Escrow.SwapInfo),
       l sellFromA = some (.token s0) → s0.owner = poster →
       l buyToA = some (.token b0) →
       swapA = (pda.find [swapSeed]).1 →
       l swapA = some (.swap info) →
       escrowA = (pda.find [swapA]).1 →
       (l escrowA).isSome = true →
       Escrow.postSwap pda poster sellFromA buyToA swapA escrowA mintA swapSeed
         sellAmount buyAmount l = .error .accountInUse ∧
       commit (Escrow.postSwap pda poster sellFromA buyToA swapA escrowA mintA swapSeed
         sellAmount buyAmount l) l = l) := by
  constructor
  · intro pda poster sfA btA swA sA bA l s0 b0 info h1 h2 h3 h4 h5 h6
    have he := Delegate.postSwap_alreadyInit sA bA h1 h2 h3 h4 h5 h6
    exact ⟨he, commit_error he⟩
  · intro pda poster sfA btA swA escA mA seed sA bA l s0 b0 info h1 h2 h3 h4 h5 h6 h7
    have he := Escrow.postSwap_inUse mA sA bA h1 h2 h3 h4 h5 h6 h7
    exact ⟨he, commit_error he⟩

/-- Witness for C3 (amended) in the delegation variant: re-posting with
different amounts 9/6 against the live record fails with `AlreadyInitialized`
and changes nothing. -/
theorem claim_C3_witness :
    Delegate.postSwap pda0 1 11 12 31 9 6 l1D = .error .alreadyInitialized ∧
    commit (Delegate.postSwap pda0 1 11 12 31 9 6 l1D) l1D = l1D :=
  claim_C3.1 pda0 1 11 12 31 9 6 l1D ⟨1, 21, 10, some 31, 10⟩ ⟨1, 22, 0, none, 0⟩
    ⟨true, 1, 11, 12, 10, 7⟩
    (by decide) (by decide) (by decide) (by decide) (by decide) (by decide)

/-- C4: both operations are atomic in both variants — any failing `post` or
`take` commits no state change; in particular, when validation passes but the
poster-side funds are gone (stale approval spent out-of-band, or a drained
holding account), the first transfer fails, the second is never applied, and
the record and all balances stay as they were. -/
theorem claim_C4 :
    (∀ (pda : Pda) (poster sellFromA buyToA swapA : Pubkey)
       (sellAmount buyAmount : Nat) (l : Delegate.L),
       isOkR (Delegate.postSwap pda poster sellFromA buyToA swapA sellAmount buyAmount l)
         = false →
       commit (Delegate.postSwap pda poster sellFromA buyToA swapA sellAmount buyAmount l)
         l = l) ∧
    (∀ (pda : Pda) (taker takerSellA takerBuyA swapA pSellA pBuyA : Pubkey)
       (bump : Nat) (l : Delegate.L),
       isOkR (Delegate.takeSwap pda taker takerSellA takerBuyA swapA pSellA pBuyA bump l)
         = false →
       commit (Delegate.takeSwap pda taker takerSellA takerBuyA swapA pSellA pBuyA bump l)
         l = l) ∧
    (∀ (pda : Pda) (poster sellFromA buyToA swapA escrowA mintA : Pubkey)
       (swapSeed sellAmount buyAmount : Nat) (l : Escrow.L),
       isOkR (Escrow.postSwap pda poster sellFromA buyToA swapA escrowA mintA swapSeed
         sellAmount buyAmount l) = false →
       commit (Escrow.postSwap pda poster sellFromA buyToA swapA escrowA mintA swapSeed
         sellAmount buyAmount l) l = l) ∧
    (∀ (pda : Pda) (taker takerSellA takerBuyA swapA escrowArgA pBuyA : Pubkey)
       (l : Escrow.L),
       isOkR (Escrow.takeSwap pda taker takerSellA takerBuyA swapA escrowArgA pBuyA l)
         = false →
       commit (Escrow.takeSwap pda taker takerSellA takerBuyA swapA escrowArgA pBuyA l)
         l = l) ∧
    (∀ (pda : Pda) (taker takerSellA takerBuyA swapA pSellA pBuyA : Pubkey)
       (bump : Nat) (l : Delegate.L) (info : Delegate.SwapInfo)
       (tS tB pS : TokenAccount),
       l takerSellA = some (.token tS) → tS.owner = taker →
       l takerBuyA = some (.token tB) →
       l swapA = some (.swap info) →
       swapA = (pda.find [info.posterSellAccount]).1 →
       pSellA = info.posterSellAccount →
       l pSellA = some (.token pS) → pS.owner = info.poster →
       pS.delegate = some swapA →
       pBuyA = info.posterBuyAccount → (∃ pB, l pBuyA = some (.token pB)) →
       pS.amount < info.posterSellAmount →
       Delegate.takeSwap pda taker takerSellA takerBuyA swapA pSellA pBuyA bump l
         = .error .insufficientFunds ∧
       commit (Delegate.takeSwap pda taker takerSellA takerBuyA swapA pSellA pBuyA bump l)
         l = l) ∧
    (∀ (pda : Pda) (taker takerSellA takerBuyA swapA escrowArgA pBuyA : Pubkey)
       (l : Escrow.L) (info : Escrow.SwapInfo) (tS tB eT : TokenAccount),
       l takerSellA = some (.token tS) → tS.owner = taker →
       l takerBuyA = some (.token tB) →
       l swapA = some (.swap info) →
       escrowArgA = info.escrowAccount →
       l escrowArgA = some (.token eT) →
       pBuyA = info.posterBuyAccount → (∃ pB, l pBuyA = some (.token pB)) →
       eT.amount < info.posterSellAmount →
       Escrow.takeSwap pda taker takerSellA takerBuyA swapA escrowArgA pBuyA l
         = .error .insufficientFunds ∧
       commit (Escrow.takeSwap pda taker takerSellA takerBuyA swapA escrowArgA pBuyA l)
         l = l) := by
  refine ⟨?_, ?_, ?_, ?_, ?_, ?_⟩
  · intro pda poster sfA btA swA sA bA l h; exact commit_not_ok h
  · intro pda taker tsA tbA swA psA pbA bump l h; exact commit_not_ok h
  · intro pda poster sfA btA swA escA mA seed sA bA l h; exact commit_not_ok h
  · intro pda taker tsA tbA swA escA pbA l h; exact commit_not_ok h
  · intro pda taker tsA tbA swA psA pbA bump l info tS tB pS
      h1 h2 h3 h4 h5 h6 h7 h8 h9 h10 h11 h12
    have he := Delegate.takeSwap_insufficient bump h1 h2 h3 h4 h5 h6 h7 h8 h9 h10 h11 h12
    exact ⟨he, commit_error he⟩
  · intro pda taker tsA tbA swA escA pbA l info tS tB eT
      h1 h2 h3 h4 h5 h6 h7 h8 h9
    have he := Escrow.takeSwap_insufficientE pda h1 h2 h3 h4 h5 h6 h7 h8 h9
    exact ⟨he, commit_error he⟩

/-- Witness for C4: with the poster's sell account drained out-of-band after
`post`, `take` fails with `InsufficientFunds` and commits nothing. -/
theorem claim_C4_witness :
    Delegate.takeSwap pda0 2 13 14 31 11 12 7 drainedD = .error .insufficientFunds ∧
    commit (Delegate.takeSwap pda0 2 13 14 31 11 12 7 drainedD) drainedD = drainedD :=
  (claim_C4.2.2.2.2.1) pda0 2 13 14 31 11 12 7 drainedD ⟨true, 1, 11, 12, 10, 7⟩
    ⟨2, 22, 7, none, 0⟩ ⟨2, 21, 0, none, 0⟩ ⟨1, 21, 0, some 31, 10⟩
    (by decide) (by decide) (by decide) (by decide) (by decide) (by decide)
    (by decide) (by decide) (by decide) (by decide)
    ⟨⟨1, 22, 0, none, 0⟩, by decide⟩ (by decide)

/-- C5: `take` fails with no state change whenever a supplied poster-side
account differs from the record's stored reference — the poster sell account
(delegation), the holding account (escrow) or the poster buy account (both) —
and, in the delegation variant, whenever the sell account's delegate is not
exactly the record's own address. -/
theorem claim_C5 :
    (∀ (pda : Pda) (taker takerSellA takerBuyA swapA pSellA pBuyA : Pubkey)
       (bump : Nat) (l : Delegate.L) (info : Delegate.SwapInfo)
       (tS tB pS : TokenAccount),
       l takerSellA = some (.token tS) → tS.owner = taker →
       l takerBuyA = some (.token tB) →
       l swapA = some (.swap info) →
       swapA = (pda.find [info.posterSellAccount]).1 →
       l pSellA = some (.token pS) →
       pSellA ≠ info.posterSellAccount →
       Delegate.takeSwap pda taker takerSellA takerBuyA swapA pSellA pBuyA bump l
         = .error .constraintViolation ∧
       commit (Delegate.takeSwap pda taker takerSellA takerBuyA swapA pSellA pBuyA bump l)
         l = l) ∧
    (∀ (pda : Pda) (taker takerSellA takerBuyA swapA pSellA pBuyA : Pubkey)
       (bump : Nat) (l : Delegate.L) (info : Delegate.SwapInfo)
       (tS tB pS : TokenAccount),
       l takerSellA = some (.token tS) → tS.owner = taker →
       l takerBuyA = some (.token tB) →
       l swapA = some (.swap info) →
       swapA = (pda.find [info.posterSellAccount]).1 →
       pSellA = info.posterSellAccount →
       l pSellA = some (.token pS) → pS.owner = info.poster →
       pS.delegate ≠ some swapA →
       Delegate.takeSwap pda taker takerSellA takerBuyA swapA pSellA pBuyA bump l
         = .error .constraintViolation ∧
       commit (Delegate.takeSwap pda taker takerSellA takerBuyA swapA pSellA pBuyA bump l)
         l = l) ∧
    (∀ (pda : Pda) (taker takerSellA takerBuyA swapA pSellA pBuyA : Pubkey)
       (bump : Nat) (l : Delegate.L) (info : Delegate.SwapInfo)
       (tS tB pS pB : TokenAccount),
       l takerSellA = some (.token tS) → tS.owner = taker →
       l takerBuyA = some (.token tB) →
       l swapA = some (.swap info) →
       swapA = (pda.find [info.posterSellAccount]).1 →
       pSellA = info.posterSellAccount →
       l pSellA = some (.token pS) → pS.owner = info.poster →
       pS.delegate = some swapA →
       l pBuyA = some (.token pB) →
       pBuyA ≠ info.posterBuyAccount →
       Delegate.takeSwap pda taker takerSellA takerBuyA swapA pSellA pBuyA bump l
         = .error .constraintViolation ∧
       commit (Delegate.takeSwap pda taker takerSellA takerBuyA swapA pSellA pBuyA bump l)
         l = l) ∧
    (∀ (pda : Pda) (taker takerSellA takerBuyA swapA escrowArgA pBuyA : Pubkey)
       (l : Escrow.L) (info : Escrow.SwapInfo) (tS tB eT : TokenAccount),
       l takerSellA = some (.token tS) → tS.owner = taker →
       l takerBuyA = some (.token tB) →
       l swapA = some (.swap info) →
       l escrowArgA = some (.token eT) →
       escrowArgA ≠ info.escrowAccount →
       Escrow.takeSwap pda taker takerSellA takerBuyA swapA escrowArgA pBuyA l
         = .error .constraintViolation ∧
       commit (Escrow.takeSwap pda taker takerSellA takerBuyA swapA escrowArgA pBuyA l)
         l = l) ∧
    (∀ (pda : Pda) (taker takerSellA takerBuyA swapA escrowArgA pBuyA : Pubkey)
       (l : Escrow.L) (info : Escrow.SwapInfo) (tS tB eT pB : TokenAccount),
       l takerSellA = some (.token tS) → tS.owner = taker →
       l takerBuyA = some (.token tB) →
       l swapA = some (.swap info) →
       escrowArgA = info.escrowAccount →
       l escrowArgA = some (.token eT) →
       l pBuyA = some (.token pB) →
       pBuyA ≠ info.posterBuyAccount →
       Escrow.takeSwap pda taker takerSellA takerBuyA swapA escrowArgA pBuyA l
         = .error .constraintViolation ∧
       commit (Escrow.takeSwap pda taker takerSellA takerBuyA swapA escrowArgA pBuyA l)
         l = l) := by
  refine ⟨?_, ?_, ?_, ?_, ?_⟩
  · intro pda taker tsA tbA swA psA pbA bump l info tS tB pS h1 h2 h3 h4 h5 h6 h7
    exact ⟨Delegate.takeSwap_wrongSell h1 h2 h3 h4 h5 h6 h7,
      commit_error (Delegate.takeSwap_wrongSell h1 h2 h3 h4 h5 h6 h7)⟩
  · intro pda taker tsA tbA swA psA pbA bump l info tS tB pS h1 h2 h3 h4 h5 h6 h7 h8 h9
    exact ⟨Delegate.takeSwap_wrongDelegate h1 h2 h3 h4 h5 h6 h7 h8 h9,
      commit_error (Delegate.takeSwap_wrongDelegate h1 h2 h3 h4 h5 h6 h7 h8 h9)⟩
  · intro pda taker tsA tbA swA psA pbA bump l info tS tB pS pB
      h1 h2 h3 h4 h5 h6 h7 h8 h9 h10 h11
    exact ⟨Delegate.takeSwap_wrongBuy h1 h2 h3 h4 h5 h6 h7 h8 h9 h10 h11,
      commit_error (Delegate.takeSwap_wrongBuy h1 h2 h3 h4 h5 h6 h7 h8 h9 h10 h11)⟩
  · intro pda taker tsA tbA swA escA pbA l info tS tB eT h1 h2 h3 h4 h5 h6
    exact ⟨Escrow.takeSwap_wrongEscrow h1 h2 h3 h4 h5 h6,
      commit_error (Escrow.takeSwap_wrongEscrow h1 h2 h3 h4 h5 h6)⟩
  · intro pda taker tsA tbA swA escA pbA l info tS tB eT pB h1 h2 h3 h4 h5 h6 h7 h8
    exact ⟨Escrow.takeSwap_wrongBuyE h1 h2 h3 h4 h5 h6 h7 h8,
      commit_error (Escrow.takeSwap_wrongBuyE h1 h2 h3 h4 h5 h6 h7 h8)⟩

/-- Witness for C5: supplying the taker's own alpha account (14) in place of
the stored poster buy account (12) makes `take` fail and change nothing. -/
theorem claim_C5_witness :
    Delegate.takeSwap pda0 2 13 14 31 11 14 7 l1D = .error .constraintViolation ∧
    commit (Delegate.takeSwap pda0 2 13 14 31 11 14 7 l1D) l1D = l1D :=
  claim_C5.2.2.1 pda0 2 13 14 31 11 14 7 l1D ⟨true, 1, 11, 12, 10, 7⟩
    ⟨2, 22, 7, none, 0⟩ ⟨2, 21, 0, none, 0⟩ ⟨1, 21, 10, some 31, 10⟩ ⟨2, 21, 0, none, 0⟩
    (by decide) (by decide) (by decide) (by decide) (by decide) (by decide)
    (by decide) (by decide) (by decide) (by decide) (by decide)

/-- Counterexample to C6 as stated: in the concrete scenario, after a
successful escrow `post` and `take` the record account 32 is gone, but the
holding account 33 still exists (as an empty token account) — it is never
closed. -/
theorem claim_C6_counterexample :
    isOkR (Escrow.postSwap pda0 1 11 12 32 33 21 40 10 7 l0E) = true ∧
    isOkR (Escrow.takeSwap pda0 2 13 14 32 33 12 l1E) = true ∧
    l2E 32 = none ∧
    l2E 33 = some (.token ⟨33, 21, 0, none, 0⟩) := by
  refine ⟨by decide, by decide, by decide, by decide⟩

/-- C6 (amended): a successful escrow `take` deletes the SwapRecord, but not
the holding account: the holding account remains in existence as a token
account, merely emptied to balance zero. -/
theorem claim_C6 :
    (∀ (pda : Pda) (taker takerSellA takerBuyA swapA escrowArgA pBuyA : Pubkey)
       (l lf : Escrow.L),
       Escrow.takeSwap pda taker takerSellA takerBuyA swapA escrowArgA pBuyA l
         = .ok lf →
       lf swapA = none ∧ ∃ t, lf escrowArgA = some (.token t)) ∧
    (∀ (pda : Pda) (taker takerSellA takerBuyA swapA escrowArgA pBuyA : Pubkey)
       (l : Escrow.L) (info : Escrow.SwapInfo) (tS tB eT pB : TokenAccount),
       l takerSellA = some (.token tS) → tS.owner = taker → tS.delegate = none →
       l takerBuyA = some (.token tB) →
       l swapA = some (.swap info) →
       escrowArgA = info.escrowAccount →
       l escrowArgA = some (.token eT) → eT.owner = escrowArgA →
       eT.delegate = none →
       pBuyA = info.posterBuyAccount → l pBuyA = some (.token pB) →
       pda.create [swapA] ((pda.find [swapA]).2) = some escrowArgA →
       eT.amount = info.posterSellAmount →
       info.posterBuyAmount ≤ tS.amount →
       eT.mint = tB.mint → tS.mint = pB.mint →
       tB.amount + info.posterSellAmount ≤ U64MAX →
       pB.amount + info.posterBuyAmount ≤ U64MAX →
       escrowArgA ≠ takerBuyA → takerSellA ≠ pBuyA →
       takerSellA ≠ escrowArgA → takerSellA ≠ takerBuyA →
       pBuyA ≠ escrowArgA → pBuyA ≠ takerBuyA →
       isOkR (Escrow.takeSwap pda taker takerSellA takerBuyA swapA escrowArgA pBuyA l)
         = true ∧
       commit (Escrow.takeSwap pda taker takerSellA takerBuyA swapA escrowArgA pBuyA l) l
         swapA = none ∧
       balance (commit (Escrow.takeSwap pda taker takerSellA takerBuyA swapA escrowArgA
         pBuyA l) l) escrowArgA = some 0) := by
  constructor
  · intro pda taker tsA tbA swA escA pbA l lf h
    have hinv := Escrow.takeSwap_ok_invE h
    exact ⟨hinv.2.1, hinv.2.2.2.2.2.2.1⟩
  · intro pda taker tsA tbA swA escA pbA l info tS tB eT pB
      h1 h2 h3 h4 h5 h6 h7 h8 h9 h10 h11 h12 heq h13 h14 h15 h16 h17 d1 d2 d3 d4 d5 d6
    obtain ⟨hok, hnone, hbal, _⟩ := Escrow.take_exactE h1 h2 h3 h4 h5 h6 h7 h8 h9
      h10 h11 h12 heq.ge h13 h14 h15 h16 h17 d1 d2 d3 d4 d5 d6
    exact ⟨hok, hnone, by rw [hbal, heq, Nat.sub_self]⟩

/-- Witness for C6 (amended) at the concrete scenario: `take` succeeds, the
record is gone, the holding account remains with balance 0. -/
theorem claim_C6_witness :
    isOkR (Escrow.takeSwap pda0 2 13 14 32 33 12 l1E) = true ∧
    commit (Escrow.takeSwap pda0 2 13 14 32 33 12 l1E) l1E 32 = none ∧
    balance (commit (Escrow.takeSwap pda0 2 13 14 32 33 12 l1E) l1E) 33 = some 0 :=
  claim_C6.2 pda0 2 13 14 32 33 12 l1E ⟨true, 1, 33, 12, 10, 7⟩
    ⟨2, 22, 7, none, 0⟩ ⟨2, 21, 0, none, 0⟩ ⟨33, 21, 10, none, 0⟩ ⟨1, 22, 0, none, 0⟩
    (by decide) (by decide) (by decide) (by decide) (by decide) (by decide)
    (by decide) (by decide) (by decide) (by decide) (by decide) (by decide)
    (by decide) (by decide) (by decide) (by decide) (by decide) (by decide)
    (by decide) (by decide) (by decide) (by decide) (by decide) (by decide)

/-- C7: every fund movement uses exactly the declared terms — `post` records
exactly the given amounts and approves (delegation) or escrows (escrow)
exactly `sell_amount`; `take` transfers exactly the stored `sell_amount` to
the taker and exactly the stored `buy_amount` to the poster; and no operation
ever mutates the amounts of an initialized record (it is only ever deleted
whole). -/
theorem claim_C7 :
    (∀ (pda : Pda) (poster sellFromA buyToA swapA : Pubkey)
       (sellAmount buyAmount : Nat) (l lf : Delegate.L),
       Delegate.postSwap pda poster sellFromA buyToA swapA sellAmount buyAmount l
         = .ok lf →
       lf swapA = some (.swap
         { isInitialized := true, poster := poster, posterSellAccount := sellFromA,
           posterBuyAccount := buyToA, posterSellAmount := sellAmount,
           posterBuyAmount := buyAmount }) ∧
       ∃ s0, l sellFromA = some (.token s0) ∧
         lf sellFromA = some (.token { s0 with delegate := some swapA,
                                               delegatedAmount := sellAmount })) ∧
    (∀ (pda : Pda) (poster sellFromA buyToA swapA escrowA mintA : Pubkey)
       (swapSeed sellAmount buyAmount : Nat) (l lf : Escrow.L),
       Escrow.postSwap pda poster sellFromA buyToA swapA escrowA mintA swapSeed
         sellAmount buyAmount l = .ok lf →
       lf swapA = some (.swap
         { isInitialized := true, poster := poster, escrowAccount := escrowA,
           posterBuyAccount := buyToA, posterSellAmount := sellAmount,
           posterBuyAmount := buyAmount }) ∧
       lf escrowA = some (.token ⟨escrowA, mintA, 0 + sellAmount, none, 0⟩) ∧
       ∃ s0 s1, l sellFromA = some (.token s0) ∧ sellAmount ≤ s0.amount ∧
         lf sellFromA = some (.token s1) ∧ s1.amount = s0.amount - sellAmount) ∧
    (∀ (pda : Pda) (taker takerSellA takerBuyA swapA pSellA pBuyA : Pubkey)
       (bump : Nat) (l : Delegate.L) (info : Delegate.SwapInfo)
       (tS tB pS pB : TokenAccount),
       l takerSellA = some (.token tS) → tS.owner = taker → tS.delegate = none →
       l takerBuyA = some (.token tB) →
       l swapA = some (.swap info) →
       swapA = (pda.find [info.posterSellAccount]).1 →
       pSellA = info.posterSellAccount →
       l pSellA = some (.token pS) → pS.owner = info.poster →
       pS.delegate = some swapA →
       pBuyA = info.posterBuyAccount → l pBuyA = some (.token pB) →
       pda.create [info.posterSellAccount] bump = some swapA →
       info.posterSellAmount ≤ pS.amount →
       info.posterSellAmount ≤ pS.delegatedAmount →
       info.posterBuyAmount ≤ tS.amount →
       pS.mint = tB.mint → tS.mint = pB.mint →
       tB.amount + info.posterSellAmount ≤ U64MAX →
       pB.amount + info.posterBuyAmount ≤ U64MAX →
       pSellA ≠ takerBuyA → takerSellA ≠ pBuyA →
       takerSellA ≠ pSellA → takerSellA ≠ takerBuyA →
       pBuyA ≠ pSellA → pBuyA ≠ takerBuyA →
       isOkR (Delegate.takeSwap pda taker takerSellA takerBuyA swapA pSellA pBuyA bump l)
         = true ∧
       balance (commit (Delegate.takeSwap pda taker takerSellA takerBuyA swapA pSellA
         pBuyA bump l) l) pSellA = some (pS.amount - info.posterSellAmount) ∧
       balance (commit (Delegate.takeSwap pda taker takerSellA takerBuyA swapA pSellA
         pBuyA bump l) l) takerBuyA = some (tB.amount + info.posterSellAmount) ∧
       balance (commit (Delegate.takeSwap pda taker takerSellA takerBuyA swapA pSellA
         pBuyA bump l) l) takerSellA = some (tS.amount - info.posterBuyAmount) ∧
       balance (commit (Delegate.takeSwap pda taker takerSellA takerBuyA swapA pSellA
         pBuyA bump l) l) pBuyA = some (pB.amount + info.posterBuyAmount)) ∧
    (∀ (pda : Pda) (taker takerSellA takerBuyA swapA escrowArgA pBuyA : Pubkey)
       (l : Escrow.L) (info : Escrow.SwapInfo) (tS tB eT pB : TokenAccount),
       l takerSellA = some (.token tS) → tS.owner = taker → tS.delegate = none →
       l takerBuyA = some (.token tB) →
       l swapA = some (.swap info) →
       escrowArgA = info.escrowAccount →
       l escrowArgA = some (.token eT) → eT.owner = escrowArgA →
       eT.delegate = none →
       pBuyA = info.posterBuyAccount → l pBuyA = some (.token pB) →
       pda.create [swapA] ((pda.find [swapA]).2) = some escrowArgA →
       info.posterSellAmount ≤ eT.amount →
       info.posterBuyAmount ≤ tS.amount →
       eT.mint = tB.mint → tS.mint = pB.mint →
       tB.amount + info.posterSellAmount ≤ U64MAX →
       pB.amount + info.posterBuyAmount ≤ U64MAX →
       escrowArgA ≠ takerBuyA → takerSellA ≠ pBuyA →
       takerSellA ≠ escrowArgA → takerSellA ≠ takerBuyA →
       pBuyA ≠ escrowArgA → pBuyA ≠ takerBuyA →
       isOkR (Escrow.takeSwap pda taker takerSellA takerBuyA swapA escrowArgA pBuyA l)
         = true ∧
       balance (commit (Escrow.takeSwap pda taker takerSellA takerBuyA swapA escrowArgA
         pBuyA l) l) escrowArgA = some (eT.amount - info.posterSellAmount) ∧
       balance (commit (Escrow.takeSwap pda taker takerSellA takerBuyA swapA escrowArgA
         pBuyA l) l) takerBuyA = some (tB.amount + info.posterSellAmount) ∧
       balance (commit (Escrow.takeSwap pda taker takerSellA takerBuyA swapA escrowArgA
         pBuyA l) l) takerSellA = some (tS.amount - info.posterBuyAmount) ∧
       balance (commit (Escrow.takeSwap pda taker takerSellA takerBuyA swapA escrowArgA
         pBuyA l) l) pBuyA = some (pB.amount + info.posterBuyAmount)) ∧
    (∀ (pda : Pda) (poster sellFromA buyToA swapA : Pubkey)
       (sellAmount buyAmount : Nat) (l : Delegate.L) (r : Pubkey)
       (srec : Delegate.SwapInfo),
       l r = some (.swap srec) → srec.isInitialized = true →
       commit (Delegate.postSwap pda poster sellFromA buyToA swapA sellAmount buyAmount l)
         l r = l r) ∧
    (∀ (pda : Pda) (taker takerSellA takerBuyA swapA pSellA pBuyA : Pubkey)
       (bump : Nat) (l : Delegate.L) (r : Pubkey) (srec : Delegate.SwapInfo),
       l r = some (.swap srec) → srec.isInitialized = true →
       commit (Delegate.takeSwap pda taker takerSellA takerBuyA swapA pSellA pBuyA bump l)
           l r = l r ∨
       commit (Delegate.takeSwap pda taker takerSellA takerBuyA swapA pSellA pBuyA bump l)
           l r = none) ∧
    (∀ (pda : Pda) (poster sellFromA buyToA swapA escrowA mintA : Pubkey)
       (swapSeed sellAmount buyAmount : Nat) (l : Escrow.L) (r : Pubkey)
       (srec : Escrow.SwapInfo),
       l r = some (.swap srec) → srec.isInitialized = true →
       commit (Escrow.postSwap pda poster sellFromA buyToA swapA escrowA mintA swapSeed
         sellAmount buyAmount l) l r = l r) ∧
    (∀ (pda : Pda) (taker takerSellA takerBuyA swapA escrowArgA pBuyA : Pubkey)
       (l : Escrow.L) (r : Pubkey) (srec : Escrow.SwapInfo),
       l r = some (.swap srec) →
       commit (Escrow.takeSwap pda taker takerSellA takerBuyA swapA escrowArgA pBuyA l)
           l r = l r ∨
       commit (Escrow.takeSwap pda taker takerSellA takerBuyA swapA escrowArgA pBuyA l)
           l r = none) := by
  refine ⟨?_, ?_, ?_, ?_, ?_, ?_, ?_, ?_⟩
  · intro pda poster sfA btA swA sA bA l lf h
    obtain ⟨_, _, ⟨s0, hs0, _, hlf⟩, hrec, _⟩ := Delegate.postSwap_ok_inv h
    exact ⟨hrec, s0, hs0, hlf⟩
  · intro pda poster sfA btA swA escA mA seed sA bA l lf h
    obtain ⟨_, _, _, _, ⟨s0, hs0, _, _, hle, s1, hs1, hs1a⟩, hrec, hescB, _⟩ :=
      Escrow.postSwap_ok_invE h
    exact ⟨hrec, hescB, s0, s1, hs0, hle, hs1, hs1a⟩
  · intro pda taker tsA tbA swA psA pbA bump l info tS tB pS pB
      h1 h2 h3 h4 h5 h6 h7 h8 h9 h10 h11 h12 h13 h14 h15 h16 h17 h18 h19 h20
      d1 d2 d3 d4 d5 d6
    exact Delegate.take_exact h1 h2 h3 h4 h5 h6 h7 h8 h9 h10 h11 h12 h13 h14 h15
      h16 h17 h18 h19 h20 d1 d2 d3 d4 d5 d6
  · intro pda taker tsA tbA swA escA pbA l info tS tB eT pB
      h1 h2 h3 h4 h5 h6 h7 h8 h9 h10 h11 h12 h13 h14 h15 h16 h17 h18
      d1 d2 d3 d4 d5 d6
    obtain ⟨hok, _, hrest⟩ := Escrow.take_exactE h1 h2 h3 h4 h5 h6 h7 h8 h9 h10
      h11 h12 h13 h14 h15 h16 h17 h18 d1 d2 d3 d4 d5 d6
    exact ⟨hok, hrest⟩
  · exact Delegate.post_keeps_record
  · exact Delegate.take_keeps_record
  · exact Escrow.post_keeps_recordE
  · exact Escrow.take_keeps_recordE

/-- Witness for C7 at the concrete delegation take: exactly 10 alpha and 7
beta move, as stored in the record. -/
theorem claim_C7_witness :
    isOkR (Delegate.takeSwap pda0 2 13 14 31 11 12 7 l1D) = true ∧
    balance (commit (Delegate.takeSwap pda0 2 13 14 31 11 12 7 l1D) l1D) 11 = some 0 ∧
    balance (commit (Delegate.takeSwap pda0 2 13 14 31 11 12 7 l1D) l1D) 14 = some 10 ∧
    balance (commit (Delegate.takeSwap pda0 2 13 14 31 11 12 7 l1D) l1D) 13 = some 0 ∧
    balance (commit (Delegate.takeSwap pda0 2 13 14 31 11 12 7 l1D) l1D) 12 = some 7 :=
  claim_C7.2.2.1 pda0 2 13 14 31 11 12 7 l1D ⟨true, 1, 11, 12, 10, 7⟩
    ⟨2, 22, 7, none, 0⟩ ⟨2, 21, 0, none, 0⟩ ⟨1, 21, 10, some 31, 10⟩ ⟨1, 22, 0, none, 0⟩
    (by decide) (by decide) (by decide) (by decide) (by decide) (by decide)
    (by decide) (by decide) (by decide) (by decide) (by decide) (by decide)
    (by decide) (by decide) (by decide) (by decide) (by decide) (by decide)
    (by decide) (by decide) (by decide) (by decide) (by decide) (by decide)
    (by decide) (by decide)

/-- C8: the record's storage address is the deterministic derivation of the
post-time seed — the seller's sell-account address in the delegation variant,
the poster-chosen seed in the escrow variant — and in the escrow variant both
the holding account's address and its authority (the `owner` field of the
created token account, `token::authority = escrow`, escrow lib.rs 43) are the
address derived from the SwapRecord's own address (second-order derivation). -/
theorem claim_C8 :
    (∀ (pda : Pda) (poster sellFromA buyToA swapA : Pubkey)
       (sellAmount buyAmount : Nat) (l lf : Delegate.L),
       Delegate.postSwap pda poster sellFromA buyToA swapA sellAmount buyAmount l
         = .ok lf →
       swapA = (pda.find [sellFromA]).1) ∧
    (∀ (pda : Pda) (poster sellFromA buyToA swapA escrowA mintA : Pubkey)
       (swapSeed sellAmount buyAmount : Nat) (l lf : Escrow.L),
       Escrow.postSwap pda poster sellFromA buyToA swapA escrowA mintA swapSeed
         sellAmount buyAmount l = .ok lf →
       swapA = (pda.find [swapSeed]).1 ∧ escrowA = (pda.find [swapA]).1 ∧
       lf escrowA = some (.token
         ⟨(pda.find [swapA]).1, mintA, 0 + sellAmount, none, 0⟩) ∧
       (∀ t, lf escrowA = some (.token t) → t.owner = (pda.find [swapA]).1)) := by
  constructor
  · intro pda poster sfA btA swA sA bA l lf h
    exact (Delegate.postSwap_ok_inv h).1
  · intro pda poster sfA btA swA escA mA seed sA bA l lf h
    obtain ⟨h1, h2, _, _, _, _, hescB, _⟩ := Escrow.postSwap_ok_invE h
    refine ⟨h1, h2, ?_, ?_⟩
    · rw [← h2]; exact hescB
    · intro t ht
      rw [hescB] at ht
      injection ht with ht
      injection ht with ht
      rw [← ht]
      exact h2

/-- Witness for C8: in the concrete escrow run both derivations hold and the
holding account 33 is created with itself — the derived address — as
authority. -/
theorem claim_C8_witness :
    (32 : Pubkey) = (pda0.find [40]).1 ∧ (33 : Pubkey) = (pda0.find [32]).1 ∧
    l1E 33 = some (.token ⟨(pda0.find [32]).1, 21, 0 + 10, none, 0⟩) ∧
    (∀ t, l1E 33 = some (.token t) → t.owner = (pda0.find [32]).1) :=
  claim_C8.2 pda0 1 11 12 32 33 21 40 10 7 l0E l1E rfl

/-- C9: in the escrow variant, `post` requires the seller's sell account's
mint to equal the supplied mint used to create the holding account: a
mismatched mint fails with no state change, and on success the holding account
carries exactly the seller's mint. -/
theorem claim_C9 :
    (∀ (pda : Pda) (poster sellFromA buyToA swapA escrowA mintA : Pubkey)
       (swapSeed sellAmount buyAmount : Nat) (l : Escrow.L) (s0 b0 : TokenAccount),
       l sellFromA = some (.token s0) → s0.owner = poster →
       l buyToA = some (.token b0) →
       swapA = (pda.find [swapSeed]).1 → l swapA = none →
       escrowA = (pda.find [swapA]).1 → l escrowA = none →
       l mintA = some .mintAcc →
       s0.mint ≠ mintA →
       Escrow.postSwap pda poster sellFromA buyToA swapA escrowA mintA swapSeed
         sellAmount buyAmount l = .error .constraintViolation ∧
       commit (Escrow.postSwap pda poster sellFromA buyToA swapA escrowA mintA swapSeed
         sellAmount buyAmount l) l = l) ∧
    (∀ (pda : Pda) (poster sellFromA buyToA swapA escrowA mintA : Pubkey)
       (swapSeed sellAmount buyAmount : Nat) (l lf : Escrow.L),
       Escrow.postSwap pda poster sellFromA buyToA swapA escrowA mintA swapSeed
         sellAmount buyAmount l = .ok lf →
       (∃ s0, l sellFromA = some (.token s0) ∧ s0.mint = mintA) ∧
       lf escrowA = some (.token ⟨escrowA, mintA, 0 + sellAmount, none, 0⟩)) := by
  constructor
  · intro pda poster sfA btA swA escA mA seed sA bA l s0 b0 h1 h2 h3 h4 h5 h6 h7 h8 h9
    exact ⟨Escrow.postSwap_mintMismatch sA bA h1 h2 h3 h4 h5 h6 h7 h8 h9,
      commit_error (Escrow.postSwap_mintMismatch sA bA h1 h2 h3 h4 h5 h6 h7 h8 h9)⟩
  · intro pda poster sfA btA swA escA mA seed sA bA l lf h
    obtain ⟨_, _, _, _, ⟨s0, hs0, _, hsm, _, _⟩, _, hescB, _⟩ := Escrow.postSwap_ok_invE h
    exact ⟨⟨s0, hs0, hsm⟩, hescB⟩

/-- Witness for C9: posting with the beta mint (22) against an alpha (21)
sell account fails and changes nothing. -/
theorem claim_C9_witness :
    Escrow.postSwap pda0 1 11 12 32 33 22 40 10 7 l0E = .error .constraintViolation ∧
    commit (Escrow.postSwap pda0 1 11 12 32 33 22 40 10 7 l0E) l0E = l0E :=
  claim_C9.1 pda0 1 11 12 32 33 22 40 10 7 l0E ⟨1, 21, 10, none, 0⟩ ⟨1, 22, 0, none, 0⟩
    (by decide) (by decide) (by decide) (by decide) (by decide) (by decide)
    (by decide) (by decide) (by decide)

/-- C10: neither variant's `take` constrains who the taker is: any signer who
owns the sell account they supply (and otherwise matches the record's
accounts) succeeds — no hypothesis relates the taker to the poster or to the
record — and the first successful caller wins: afterwards every further
`take` against the same record fails. -/
theorem claim_C10 :
    (∀ (pda : Pda) (taker takerSellA takerBuyA swapA pSellA pBuyA : Pubkey)
       (bump : Nat) (l : Delegate.L) (info : Delegate.SwapInfo)
       (tS tB pS pB : TokenAccount),
       l takerSellA = some (.token tS) → tS.owner = taker → tS.delegate = none →
       l takerBuyA = some (.token tB) →
       l swapA = some (.swap info) →
       swapA = (pda.find [info.posterSellAccount]).1 →
       pSellA = info.posterSellAccount →
       l pSellA = some (.token pS) → pS.owner = info.poster →
       pS.delegate = some swapA →
       pBuyA = info.posterBuyAccount → l pBuyA = some (.token pB) →
       pda.create [info.posterSellAccount] bump = some swapA →
       info.posterSellAmount ≤ pS.amount →
       info.posterSellAmount ≤ pS.delegatedAmount →
       info.posterBuyAmount ≤ tS.amount →
       pS.mint = tB.mint → tS.mint = pB.mint →
       tB.amount + info.posterSellAmount ≤ U64MAX →
       pB.amount + info.posterBuyAmount ≤ U64MAX →
       pSellA ≠ takerBuyA → takerSellA ≠ pBuyA →
       takerSellA ≠ pSellA → takerSellA ≠ takerBuyA →
       pBuyA ≠ pSellA → pBuyA ≠ takerBuyA →
       isOkR (Delegate.takeSwap pda taker takerSellA takerBuyA swapA pSellA pBuyA bump l)
         = true) ∧
    (∀ (pda : Pda) (taker takerSellA takerBuyA swapA escrowArgA pBuyA : Pubkey)
       (l : Escrow.L) (info : Escrow.SwapInfo) (tS tB eT pB : TokenAccount),
       l takerSellA = some (.token tS) → tS.owner = taker → tS.delegate = none →
       l takerBuyA = some (.token tB) →
       l swapA = some (.swap info) →
       escrowArgA = info.escrowAccount →
       l escrowArgA = some (.token eT) → eT.owner = escrowArgA →
       eT.delegate = none →
       pBuyA = info.posterBuyAccount → l pBuyA = some (.token pB) →
       pda.create [swapA] ((pda.find [swapA]).2) = some escrowArgA →
       info.posterSellAmount ≤ eT.amount →
       info.posterBuyAmount ≤ tS.amount →
       eT.mint = tB.mint → tS.mint = pB.mint →
       tB.amount + info.posterSellAmount ≤ U64MAX →
       pB.amount + info.posterBuyAmount ≤ U64MAX →
       escrowArgA ≠ takerBuyA → takerSellA ≠ pBuyA →
       takerSellA ≠ escrowArgA → takerSellA ≠ takerBuyA →
       pBuyA ≠ escrowArgA → pBuyA ≠ takerBuyA →
       isOkR (Escrow.takeSwap pda taker takerSellA takerBuyA swapA escrowArgA pBuyA l)
         = true) ∧
    (∀ (pda : Pda) (taker takerSellA takerBuyA swapA pSellA pBuyA : Pubkey)
       (bump : Nat) (l lf : Delegate.L)
       (taker2 takerSellA2 takerBuyA2 pSellA2 pBuyA2 : Pubkey) (bump2 : Nat),
       Delegate.takeSwap pda taker takerSellA takerBuyA swapA pSellA pBuyA bump l
         = .ok lf →
       isOkR (Delegate.takeSwap pda taker2 takerSellA2 takerBuyA2 swapA pSellA2 pBuyA2
         bump2 lf) = false) ∧
    (∀ (pda : Pda) (taker takerSellA takerBuyA swapA escrowArgA pBuyA : Pubkey)
       (l lf : Escrow.L)
       (taker2 takerSellA2 takerBuyA2 escrowArgA2 pBuyA2 : Pubkey),
       Escrow.takeSwap pda taker takerSellA takerBuyA swapA escrowArgA pBuyA l
         = .ok lf →
       isOkR (Escrow.takeSwap pda taker2 takerSellA2 takerBuyA2 swapA escrowArgA2 pBuyA2
         lf) = false) := by
  refine ⟨?_, ?_, ?_, ?_⟩
  · intro pda taker tsA tbA swA psA pbA bump l info tS tB pS pB
      h1 h2 h3 h4 h5 h6 h7 h8 h9 h10 h11 h12 h13 h14 h15 h16 h17 h18 h19 h20
      d1 d2 d3 d4 d5 d6
    exact isOkR_of_ok (Delegate.takeSwap_spec h1 h2 h3 h4 h5 h6 h7 h8 h9 h10 h11
      h12 h13 h14 h15 h16 h17 h18 h19 h20 d1 d2 d3 d4 d5 d6)
  · intro pda taker tsA tbA swA escA pbA l info tS tB eT pB
      h1 h2 h3 h4 h5 h6 h7 h8 h9 h10 h11 h12 h13 h14 h15 h16 h17 h18
      d1 d2 d3 d4 d5 d6
    exact isOkR_of_ok (Escrow.takeSwap_specE h1 h2 h3 h4 h5 h6 h7 h8 h9 h10 h11
      h12 h13 h14 h15 h16 h17 h18 d1 d2 d3 d4 d5 d6)
  · intro pda taker tsA tbA swA psA pbA bump l lf t2 ts2 tb2 ps2 pb2 b2 h
    exact Delegate.takeSwap_none_fails pda t2 ts2 tb2 swA ps2 pb2 b2 lf
      (Delegate.takeSwap_ok_inv h).2.1
  · intro pda taker tsA tbA swA escA pbA l lf t2 ts2 tb2 esc2 pb2 h
    exact Escrow.takeSwap_none_failsE pda t2 ts2 tb2 swA esc2 pb2 lf
      (Escrow.takeSwap_ok_invE h).2.1

/-- Witness for C10: taker 2, unrelated to the poster or the record, executes
the posted delegation swap. -/
theorem claim_C10_witness :
    isOkR (Delegate.takeSwap pda0 2 13 14 31 11 12 7 l1D) = true :=
  claim_C10.1 pda0 2 13 14 31 11 12 7 l1D ⟨true, 1, 11, 12, 10, 7⟩
    ⟨2, 22, 7, none, 0⟩ ⟨2, 21, 0, none, 0⟩ ⟨1, 21, 10, some 31, 10⟩ ⟨1, 22, 0, none, 0⟩
    (by decide) (by decide) (by decide) (by decide) (by decide) (by decide)
    (by decide) (by decide) (by decide) (by decide) (by decide) (by decide)
    (by decide) (by decide) (by decide) (by decide) (by decide) (by decide)
    (by decide) (by decide) (by decide) (by decide) (by decide) (by decide)
    (by decide) (by decide)
